import Mathlib

/-!
# Verification of the quantitative decision engine

A shallow embedding, in Lean 4, of the demand-forecasting, inventory-policy
and price-optimization calculations of the retail decision-support
application (`utils/forecasting.py`, `utils/inventory_optimizer.py`,
`utils/price_optimizer.py`).

Modelling conventions:
* Python floats are modelled as exact rationals (`ℚ`), Python ints as `ℤ`.
* `math.sqrt` is irrational in general, so every function that uses it takes
  an explicit square-root function `sq : ℚ → ℚ` as a parameter; theorems
  assume of `sq` exactly the facts they need (for example nonnegativity on
  nonnegative inputs, or its value at a perfect square), and concrete
  instantiations use `ratSqrt`, which is exact on perfect rational squares.
* Python's `round` (round-half-to-even, banker's rounding) is modelled
  exactly by `rne` (to an integer) and `roundTo` (to `nd` decimal digits).
* The global `random` module is modelled by a `PyRandom` structure: a state
  type together with `seed`, `uniform` and `normalvariate` operations; the
  functions thread the state explicitly.  `random.seed(n)` replaces the
  state by `seed n`, ignoring the previous state.
* Code that can raise (`ZeroDivisionError`, `ValueError` from
  `math.sqrt` of a negative) is modelled by explicit error returns,
  mirroring the `try/except` blocks that convert exceptions into
  `{"error": ...}` dictionaries.
* The inner generator expression `sum(p.get('demand', 0) for p in
  base_predictions)` of the price optimizer operates on the *dictionary*
  returned by `predict_demand`; Python dictionary/iteration semantics for
  that expression are modelled by the small `PyVal` universe below.
-/

/-! ## Rounding primitives (Python `round`) -/

/-- Round half to even (Python's `round(x)` on an exact value): the nearest
integer, ties going to the even integer. -/
def rne (x : ℚ) : ℤ :=
  if x - ⌊x⌋ < 1/2 then ⌊x⌋
  else if 1/2 < x - ⌊x⌋ then ⌊x⌋ + 1
  else if ⌊x⌋ % 2 = 0 then ⌊x⌋ else ⌊x⌋ + 1

/-- Python's `round(x, nd)` for `nd` decimal digits on an exact value. -/
def roundTo (nd : ℕ) (x : ℚ) : ℚ :=
  ((rne (x * 10 ^ nd) : ℤ) : ℚ) / 10 ^ nd

theorem rne_intCast (n : ℤ) : rne ((n : ℤ) : ℚ) = n := by
  simp [rne]

theorem rne_le_floor_add_one (x : ℚ) : rne x ≤ ⌊x⌋ + 1 := by
  unfold rne
  split_ifs <;> omega

theorem floor_le_rne (x : ℚ) : ⌊x⌋ ≤ rne x := by
  unfold rne
  split_ifs <;> omega

theorem rne_mono {x y : ℚ} (h : x ≤ y) : rne x ≤ rne y := by
  have hf : ⌊x⌋ ≤ ⌊y⌋ := Int.floor_mono h
  rcases lt_or_eq_of_le hf with hlt | heq
  · calc rne x ≤ ⌊x⌋ + 1 := rne_le_floor_add_one x
      _ ≤ ⌊y⌋ := by omega
      _ ≤ rne y := floor_le_rne y
  · -- same floor: compare fractional parts
    have hr : x - (⌊x⌋ : ℚ) ≤ y - (⌊y⌋ : ℚ) := by
      rw [← heq]; linarith
    unfold rne
    rw [← heq]
    split_ifs <;> first | omega | (exfalso; linarith)

theorem rne_nonneg {x : ℚ} (h : 0 ≤ x) : 0 ≤ rne x := by
  have := rne_mono h
  simpa [rne] using this

theorem roundTo_mono (nd : ℕ) {x y : ℚ} (h : x ≤ y) :
    roundTo nd x ≤ roundTo nd y := by
  unfold roundTo
  have hp : (0 : ℚ) < 10 ^ nd := by positivity
  have hm : x * 10 ^ nd ≤ y * 10 ^ nd := by
    exact mul_le_mul_of_nonneg_right h (le_of_lt hp)
  have h2 := rne_mono hm
  have h3 : ((rne (x * 10 ^ nd) : ℤ) : ℚ) ≤ ((rne (y * 10 ^ nd) : ℤ) : ℚ) := by
    exact_mod_cast h2
  gcongr

theorem roundTo_nonneg (nd : ℕ) {x : ℚ} (h : 0 ≤ x) : 0 ≤ roundTo nd x := by
  have h0 : roundTo nd 0 = 0 := by
    simp [roundTo, rne]
  calc (0 : ℚ) = roundTo nd 0 := h0.symm
    _ ≤ roundTo nd x := roundTo_mono nd h

theorem roundTo_intCast (nd : ℕ) (n : ℤ) : roundTo nd ((n : ℤ) : ℚ) = n := by
  unfold roundTo
  have hp : (10 : ℚ) ^ nd ≠ 0 := by positivity
  have : ((n : ℚ)) * 10 ^ nd = (((n * 10 ^ nd : ℤ) : ℚ)) := by push_cast; ring
  rw [this, rne_intCast]
  push_cast
  field_simp

theorem roundTo_le_ceil (nd : ℕ) (x : ℚ) : roundTo nd x ≤ (⌈x⌉ : ℚ) := by
  calc roundTo nd x ≤ roundTo nd ((⌈x⌉ : ℤ) : ℚ) :=
        roundTo_mono nd (Int.le_ceil x)
    _ = (⌈x⌉ : ℚ) := by rw [roundTo_intCast]

/-! ## Exact rational square root (used to instantiate the `sq` parameter) -/

/-- Fuel-driven integer square root (digit-by-digit in base 4), structurally
recursive so that it evaluates by kernel reduction. -/
def isqrtAux : ℕ → ℕ → ℕ
  | 0, _ => 0
  | fuel + 1, n =>
    if n = 0 then 0
    else
      let r := 2 * isqrtAux fuel (n / 4)
      if (r + 1) * (r + 1) ≤ n then r + 1 else r

/-- Integer square root (rounded down). -/
def isqrt (n : ℕ) : ℕ := isqrtAux n n

/-- Exact square root on perfect rational squares, `0` elsewhere.  Used as the
canonical concrete instantiation of the square-root parameter `sq` in
witnesses and counterexamples; all theorem hypotheses about `sq` are
satisfied by it at the relevant points. -/
def ratSqrt (q : ℚ) : ℚ :=
  if 0 ≤ q.num ∧ isqrt q.num.toNat * isqrt q.num.toNat = q.num.toNat ∧
      isqrt q.den * isqrt q.den = q.den then
    (isqrt q.num.toNat : ℚ) / (isqrt q.den : ℚ)
  else 0

theorem ratSqrt_nonneg (q : ℚ) : 0 ≤ ratSqrt q := by
  unfold ratSqrt
  split_ifs with h
  · positivity
  · exact le_refl 0

theorem ratSqrt_nonneg' : ∀ q : ℚ, 0 ≤ q → 0 ≤ ratSqrt q :=
  fun q _ => ratSqrt_nonneg q

/-! ## The random-number generator model -/

/-- Abstract model of the Python `random` module as used by the engine: a
state type with the three operations the source calls.  `seed n` builds a
fresh state from the integer seed, discarding any previous state, exactly as
`random.seed(n)` does. -/
structure PyRandom (S : Type) where
  seed : ℤ → S
  uniform : ℚ → ℚ → S → ℚ × S
  normalvariate : ℚ → ℚ → S → ℚ × S

/-- A trivial generator: `uniform a b` returns `a`, `normalvariate m s`
returns `m`. -/
def unitGen : PyRandom Unit where
  seed _ := ()
  uniform a _ _ := (a, ())
  normalvariate m _ _ := (m, ())

/-- A table-driven generator: the seed selects a list of pending draws;
`uniform` clamps the next draw into `[a, b]` (so every draw it produces is a
legitimate uniform value), `normalvariate` returns the next draw as-is. -/
def tableGen (f : ℤ → List ℚ) : PyRandom (List ℚ) where
  seed n := f n
  uniform a b s :=
    match s with
    | [] => (a, [])
    | x :: rest => (max a (min b x), rest)
  normalvariate m _ s :=
    match s with
    | [] => (m, [])
    | x :: rest => (x, rest)

/-! ## `utils/forecasting.py` : `predict_demand` -/

/-- One daily prediction record (`{"day": ..., "date": ..., "demand": ...}`);
the date string is modelled as the day offset from `today`. -/
structure Prediction where
  day : ℤ
  date : ℤ
  demand : ℚ
deriving DecidableEq, Repr

/-- One iteration of the daily-prediction loop of `predict_demand`: trend
component, weekday/weekend seasonality split, additive noise, clamp at 0,
demand rounded to one decimal in the stored record. -/
def forecastStep {S : Type} (R : PyRandom S) (base_demand trend seasonality noise_level : ℚ)
    (today : ℤ) (day : ℕ) (s : S) : Prediction × ℚ × S :=
  let trend_component := base_demand * (1 + trend * (day : ℚ))
  let day_of_week := day % 7
  let seasonality_component :=
    if 5 ≤ day_of_week then trend_component * seasonality
    else trend_component * (-(seasonality * (1/2)))
  let noisePair := R.normalvariate 0 (noise_level * base_demand) s
  let day_demand := max 0 (trend_component + seasonality_component + noisePair.1)
  (⟨(day : ℤ) + 1, today + (day : ℤ), roundTo 1 day_demand⟩, day_demand, noisePair.2)

/-- The daily-prediction loop of `predict_demand` over a list of day offsets,
returning the prediction records, the (unrounded) cumulative demand, and the
final generator state. -/
def forecastLoop {S : Type} (R : PyRandom S) (base_demand trend seasonality noise_level : ℚ)
    (today : ℤ) : List ℕ → S → List Prediction × ℚ × S
  | [], s => ([], 0, s)
  | day :: rest, s =>
    let st := forecastStep R base_demand trend seasonality noise_level today day s
    let r := forecastLoop R base_demand trend seasonality noise_level today rest st.2.2
    (st.1 :: r.1, st.2.1 + r.2.1, r.2.2)

/-- The normal (non-error) dictionary returned by `predict_demand`. -/
structure PredictOk where
  product_id : ℤ
  store_id : ℤ
  days : ℤ
  total_demand : ℤ
  avg_daily_demand : ℚ
  std_dev : ℚ
  coefficient_of_variation : ℚ
  daily_predictions : List Prediction
deriving DecidableEq, Repr

/-- Return value of `predict_demand`: either the normal dictionary or the
`{"error": ...}` dictionary produced by the exception handler. -/
inductive PredictReturn where
  | ok : PredictOk → PredictReturn
  | err : String → PredictReturn
deriving DecidableEq, Repr

def PredictReturn.isOk : PredictReturn → Bool
  | .ok _ => true
  | .err _ => false

def PredictReturn.getOk : PredictReturn → PredictOk
  | .ok r => r
  | .err _ =>
    { product_id := 0, store_id := 0, days := 0, total_demand := 0,
      avg_daily_demand := 0, std_dev := 0, coefficient_of_variation := 0,
      daily_predictions := [] }

/-- The four parameter draws made by `predict_demand` after reseeding from
`product_id * 1000 + store_id`: base demand, trend, seasonality amplitude
and noise level, together with the generator state after them. -/
def predictDraws {S : Type} (R : PyRandom S) (product_id store_id : ℤ) :
    ℚ × ℚ × ℚ × ℚ × S :=
  let s0 := R.seed (product_id * 1000 + store_id)
  let u1 := R.uniform 5 50 s0
  let u2 := R.uniform (-(1/100)) (2/100) u1.2
  let u3 := R.uniform (1/10) (2/5) u2.2
  let u4 := R.uniform (1/20) (1/5) u3.2
  (u1.1, u2.1, u3.1, u4.1, u4.2)

/-- The prediction records and cumulative demand computed by
`predict_demand` for a given horizon (the loop over `range(days)`). -/
def predictLoopOf {S : Type} (R : PyRandom S) (product_id store_id days today : ℤ) :
    List Prediction × ℚ × S :=
  let dr := predictDraws R product_id store_id
  forecastLoop R dr.1 dr.2.1 dr.2.2.1 dr.2.2.2.1 today (List.range days.toNat) dr.2.2.2.2

/-- `predict_demand(product_id, store_id, days)` from `utils/forecasting.py`.
The generator is reseeded from `product_id * 1000 + store_id`; `days = 0`
raises `ZeroDivisionError` at `total_demand / days`, which the handler turns
into an error result.  Note that the standard deviation is computed from the
*rounded* stored daily demands against the mean of the *unrounded* ones. -/
def predict_demand {S : Type} (sq : ℚ → ℚ) (R : PyRandom S)
    (product_id store_id days today : ℤ) (sInit : S) : PredictReturn × S :=
  let lp := predictLoopOf R product_id store_id days today
  let predictions := lp.1
  let cumulative_demand := lp.2.1
  if days = 0 then
    (.err "Failed to predict demand: division by zero", lp.2.2)
  else
    let total_demand := cumulative_demand
    let avg_daily_demand := total_demand / (days : ℚ)
    let variance :=
      ((predictions.map (fun p => (p.demand - avg_daily_demand) ^ 2)).sum) / (days : ℚ)
    let std_dev := sq variance
    (.ok { product_id := product_id, store_id := store_id, days := days,
           total_demand := rne total_demand,
           avg_daily_demand := roundTo 2 avg_daily_demand,
           std_dev := roundTo 2 std_dev,
           coefficient_of_variation :=
             if 0 < avg_daily_demand then roundTo 2 (std_dev / avg_daily_demand) else 0,
           daily_predictions := predictions }, lp.2.2)

/-! ## `utils/forecasting.py` : `get_historical_sales` -/

/-- One daily historical record (`{"date": ..., "sales": ..., "day_of_week": ...}`);
the date is modelled as the (negative) day offset from `today`. -/
structure HistPoint where
  date : ℤ
  sales : ℚ
  day_of_week : ℤ
deriving DecidableEq, Repr

/-- One iteration of the historical loop of `get_historical_sales` for the
day `day` days before today.  `todayDow` is the weekday index of `today`
(Monday = 0), so `date.weekday()` is `(todayDow - day) % 7`. -/
def historyStep {S : Type} (R : PyRandom S) (base_demand trend seasonality noise_level : ℚ)
    (todayDow days day : ℤ) (s : S) : HistPoint × ℚ × S :=
  let trend_component := base_demand * (1 + trend * ((days : ℚ) - (day : ℚ)))
  let day_of_week := (todayDow - day) % 7
  let seasonality_component :=
    if 5 ≤ day_of_week then trend_component * seasonality
    else trend_component * (-(seasonality * (1/2)))
  let noisePair := R.normalvariate 0 (noise_level * base_demand) s
  let day_sales := max 0 (trend_component + seasonality_component + noisePair.1)
  (⟨-day, roundTo 1 day_sales, day_of_week⟩, day_sales, noisePair.2)

/-- The historical loop of `get_historical_sales` over a list of day
offsets (the Python `range(days, 0, -1)`). -/
def historyLoop {S : Type} (R : PyRandom S) (base_demand trend seasonality noise_level : ℚ)
    (todayDow days : ℤ) : List ℤ → S → List HistPoint × ℚ × S
  | [], s => ([], 0, s)
  | day :: rest, s =>
    let st := historyStep R base_demand trend seasonality noise_level todayDow days day s
    let r := historyLoop R base_demand trend seasonality noise_level todayDow days rest st.2.2
    (st.1 :: r.1, st.2.1 + r.2.1, r.2.2)

/-- The normal (non-error) dictionary returned by `get_historical_sales`. -/
structure HistOk where
  product_id : ℤ
  store_id : ℤ
  days : ℤ
  total_sales : ℤ
  avg_daily_sales : ℚ
  std_dev : ℚ
  coefficient_of_variation : ℚ
  daily_sales : List HistPoint
deriving DecidableEq, Repr

/-- Return value of `get_historical_sales`. -/
inductive HistReturn where
  | ok : HistOk → HistReturn
  | err : String → HistReturn
deriving DecidableEq, Repr

def HistReturn.isOk : HistReturn → Bool
  | .ok _ => true
  | .err _ => false

def HistReturn.getOk : HistReturn → HistOk
  | .ok r => r
  | .err _ =>
    { product_id := 0, store_id := 0, days := 0, total_sales := 0,
      avg_daily_sales := 0, std_dev := 0, coefficient_of_variation := 0,
      daily_sales := [] }

/-- The parameter draws made by `get_historical_sales` after reseeding from
`product_id * 2000 + store_id`. -/
def historyDraws {S : Type} (R : PyRandom S) (product_id store_id : ℤ) :
    ℚ × ℚ × ℚ × ℚ × S :=
  let s0 := R.seed (product_id * 2000 + store_id)
  let u1 := R.uniform 5 50 s0
  let u2 := R.uniform (-(1/200)) (1/100) u1.2
  let u3 := R.uniform (1/10) (3/10) u2.2
  let u4 := R.uniform (1/10) (1/4) u3.2
  (u1.1, u2.1, u3.1, u4.1, u4.2)

/-- The historical records and total sales computed by
`get_historical_sales` (the loop over `range(days, 0, -1)`). -/
def historyLoopOf {S : Type} (R : PyRandom S) (product_id store_id days todayDow : ℤ) :
    List HistPoint × ℚ × S :=
  let dr := historyDraws R product_id store_id
  historyLoop R dr.1 dr.2.1 dr.2.2.1 dr.2.2.2.1 todayDow days
    ((List.range days.toNat).map (fun i => days - (i : ℤ))) dr.2.2.2.2

/-- `get_historical_sales(product_id, store_id, days)` from
`utils/forecasting.py`.  Same shape as `predict_demand`: `days = 0` raises
`ZeroDivisionError` at `total_sales / days`, converted to an error result. -/
def get_historical_sales {S : Type} (sq : ℚ → ℚ) (R : PyRandom S)
    (product_id store_id days todayDow : ℤ) (sInit : S) : HistReturn × S :=
  let lp := historyLoopOf R product_id store_id days todayDow
  let historical_data := lp.1
  let total_sales := lp.2.1
  if days = 0 then
    (.err "Failed to get historical sales: division by zero", lp.2.2)
  else
    let avg_daily_sales := total_sales / (days : ℚ)
    let variance :=
      ((historical_data.map (fun p => (p.sales - avg_daily_sales) ^ 2)).sum) / (days : ℚ)
    let std_dev := sq variance
    (.ok { product_id := product_id, store_id := store_id, days := days,
           total_sales := rne total_sales,
           avg_daily_sales := roundTo 2 avg_daily_sales,
           std_dev := roundTo 2 std_dev,
           coefficient_of_variation :=
             if 0 < avg_daily_sales then roundTo 2 (std_dev / avg_daily_sales) else 0,
           daily_sales := historical_data }, lp.2.2)

/-! ## `utils/inventory_optimizer.py` : `calculate_reorder_point` -/

/-- The service-level → safety-factor lookup table of
`calculate_reorder_point` (approximate inverse normal CDF). -/
def safetyFactor (service_level : ℚ) : ℚ :=
  if 999/1000 ≤ service_level then 309/100
  else if 99/100 ≤ service_level then 233/100
  else if 39/40 ≤ service_level then 49/25
  else if 19/20 ≤ service_level then 33/20
  else if 9/10 ≤ service_level then 32/25
  else if 4/5 ≤ service_level then 21/25
  else if 7/10 ≤ service_level then 13/25
  else 0

theorem safetyFactor_nonneg (sl : ℚ) : 0 ≤ safetyFactor sl := by
  unfold safetyFactor
  split_ifs <;> norm_num

set_option maxHeartbeats 2000000 in
theorem safetyFactor_mono {s1 s2 : ℚ} (h : s1 ≤ s2) :
    safetyFactor s1 ≤ safetyFactor s2 := by
  unfold safetyFactor
  split_ifs <;> linarith

/-- The normal (non-error) dictionary returned by `calculate_reorder_point`. -/
structure ReorderOk where
  product_id : ℤ
  store_id : ℤ
  avg_daily_demand : ℚ
  lead_time_days : ℤ
  lead_time_demand : ℚ
  demand_std_dev : ℚ
  lead_time_std_dev : ℚ
  service_level : ℚ
  safety_factor : ℚ
  safety_stock : ℚ
  reorder_point : ℤ
  stockout_probability : ℚ
deriving DecidableEq, Repr

/-- Return value of `calculate_reorder_point`. -/
inductive ReorderReturn where
  | ok : ReorderOk → ReorderReturn
  | err : String → ReorderReturn
deriving DecidableEq, Repr

def ReorderReturn.isOk : ReorderReturn → Bool
  | .ok _ => true
  | .err _ => false

def ReorderReturn.getOk : ReorderReturn → ReorderOk
  | .ok r => r
  | .err _ =>
    { product_id := 0, store_id := 0, avg_daily_demand := 0, lead_time_days := 0,
      lead_time_demand := 0, demand_std_dev := 0, lead_time_std_dev := 0,
      service_level := 0, safety_factor := 0, safety_stock := 0,
      reorder_point := 0, stockout_probability := 0 }

/-- `calculate_reorder_point(product_id, store_id, lead_time_days,
service_level)` from `utils/inventory_optimizer.py`.  The forecast horizon
is the lead time; `math.sqrt(lead_time_days)` raises for a negative lead
time, converted to an error result by the handler. -/
def calculate_reorder_point {S : Type} (sq : ℚ → ℚ) (R : PyRandom S)
    (product_id store_id lead_time_days : ℤ) (service_level : ℚ)
    (today : ℤ) (sInit : S) : ReorderReturn × S :=
  let pr := predict_demand sq R product_id store_id lead_time_days today sInit
  match pr.1 with
  | .err e => (.err e, pr.2)
  | .ok d =>
    if lead_time_days < 0 then (.err "math domain error", pr.2)
    else
      let avg_daily_demand := d.avg_daily_demand
      let std_dev := d.std_dev
      let lead_time_demand := avg_daily_demand * (lead_time_days : ℚ)
      let lead_time_std_dev := std_dev * sq (lead_time_days : ℚ)
      let safety_factor := safetyFactor service_level
      let safety_stock := safety_factor * lead_time_std_dev
      let reorder_point := lead_time_demand + safety_stock
      (.ok { product_id := product_id, store_id := store_id,
             avg_daily_demand := roundTo 2 avg_daily_demand,
             lead_time_days := lead_time_days,
             lead_time_demand := roundTo 2 lead_time_demand,
             demand_std_dev := roundTo 2 std_dev,
             lead_time_std_dev := roundTo 2 lead_time_std_dev,
             service_level := service_level,
             safety_factor := roundTo 2 safety_factor,
             safety_stock := roundTo 2 safety_stock,
             reorder_point := ⌈reorder_point⌉,
             stockout_probability := roundTo 2 ((1 - service_level) * 100) }, pr.2)

/-! ## `utils/inventory_optimizer.py` : `calculate_economic_order_quantity` -/

/-- The normal (non-error) dictionary returned by
`calculate_economic_order_quantity`. -/
structure EoqOk where
  product_id : ℤ
  store_id : ℤ
  annual_demand : ℤ
  unit_cost : ℚ
  holding_cost_pct : ℚ
  holding_cost_per_unit : ℚ
  order_cost : ℚ
  eoq : ℤ
  orders_per_year : ℚ
  days_between_orders : ℚ
  average_inventory : ℤ
  annual_ordering_cost : ℚ
  annual_holding_cost : ℚ
  total_annual_cost : ℚ
deriving DecidableEq, Repr

/-- Return value of `calculate_economic_order_quantity`. -/
inductive EoqReturn where
  | ok : EoqOk → EoqReturn
  | err : String → EoqReturn
deriving DecidableEq, Repr

def EoqReturn.isOk : EoqReturn → Bool
  | .ok _ => true
  | .err _ => false

def EoqReturn.getOk : EoqReturn → EoqOk
  | .ok r => r
  | .err _ =>
    { product_id := 0, store_id := 0, annual_demand := 0, unit_cost := 0,
      holding_cost_pct := 0, holding_cost_per_unit := 0, order_cost := 0,
      eoq := 0, orders_per_year := 0, days_between_orders := 0,
      average_inventory := 0, annual_ordering_cost := 0,
      annual_holding_cost := 0, total_annual_cost := 0 }

/-- `calculate_economic_order_quantity(product_id, store_id,
holding_cost_pct, order_cost, days)` from `utils/inventory_optimizer.py`.
The unit cost is the hard-coded placeholder `100`.  `math.sqrt` of a
negative argument and the divisions `annual_demand / eoq_rounded` and
`days / orders_per_year` raise when their denominators are zero; the
handler converts those into error results. -/
def calculate_economic_order_quantity {S : Type} (sq : ℚ → ℚ) (R : PyRandom S)
    (product_id store_id : ℤ) (holding_cost_pct order_cost : ℚ) (days : ℤ)
    (today : ℤ) (sInit : S) : EoqReturn × S :=
  let forecast_days := min days 90
  let pr := predict_demand sq R product_id store_id forecast_days today sInit
  match pr.1 with
  | .err e => (.err e, pr.2)
  | .ok d =>
    let avg_daily_demand := d.avg_daily_demand
    let annual_demand := avg_daily_demand * (days : ℚ)
    let unit_cost : ℚ := 100
    let holding_cost := unit_cost * holding_cost_pct
    if 0 < holding_cost then
      let sqArg := (2 * annual_demand * order_cost) / holding_cost
      if sqArg < 0 then (.err "math domain error", pr.2)
      else
        let eoq := sq sqArg
        let eoq_rounded := ⌈eoq⌉
        if eoq_rounded = 0 then (.err "division by zero", pr.2)
        else
          let orders_per_year := annual_demand / (eoq_rounded : ℚ)
          let ordering_cost := order_cost * orders_per_year
          let holding_cost_total := holding_cost * ((eoq_rounded : ℚ) / 2)
          let total_cost := ordering_cost + holding_cost_total
          if orders_per_year = 0 then (.err "division by zero", pr.2)
          else
            let days_between_orders := (days : ℚ) / orders_per_year
            (.ok { product_id := product_id, store_id := store_id,
                   annual_demand := rne annual_demand,
                   unit_cost := roundTo 2 unit_cost,
                   holding_cost_pct := holding_cost_pct,
                   holding_cost_per_unit := roundTo 2 holding_cost,
                   order_cost := order_cost,
                   eoq := eoq_rounded,
                   orders_per_year := roundTo 1 orders_per_year,
                   days_between_orders := roundTo 1 days_between_orders,
                   average_inventory := rne ((eoq_rounded : ℚ) / 2),
                   annual_ordering_cost := roundTo 2 ordering_cost,
                   annual_holding_cost := roundTo 2 holding_cost_total,
                   total_annual_cost := roundTo 2 total_cost }, pr.2)
    else (.err "Holding cost must be greater than zero", pr.2)

/-! ## `utils/inventory_optimizer.py` : `calculate_stockout_risk` -/

/-- The normal (non-error) dictionary returned by `calculate_stockout_risk`.
`days_until_stockout` is `none` when the Python value is `None` (infinite). -/
structure StockoutOk where
  product_id : ℤ
  store_id : ℤ
  current_stock : ℚ
  forecasted_demand : ℤ
  avg_daily_demand : ℚ
  days_until_stockout : Option ℚ
  stockout_probability : ℚ
  risk_level : String
  expected_remaining_stock : ℤ
  days : ℤ
deriving DecidableEq, Repr

/-- Return value of `calculate_stockout_risk`. -/
inductive StockoutReturn where
  | ok : StockoutOk → StockoutReturn
  | err : String → StockoutReturn
deriving DecidableEq, Repr

def StockoutReturn.isOk : StockoutReturn → Bool
  | .ok _ => true
  | .err _ => false

def StockoutReturn.getOk : StockoutReturn → StockoutOk
  | .ok r => r
  | .err _ =>
    { product_id := 0, store_id := 0, current_stock := 0, forecasted_demand := 0,
      avg_daily_demand := 0, days_until_stockout := Option.none,
      stockout_probability := 0, risk_level := "", expected_remaining_stock := 0,
      days := 0 }

/-- The step-table approximation of the normal CDF used by
`calculate_stockout_risk` when the forecast standard deviation is positive. -/
def stockoutTable (z : ℚ) : ℚ :=
  if z < -3 then 999/1000
  else if z < -2 then 39/40
  else if z < -1 then 21/25
  else if z < 0 then 1/2
  else if z < 1 then 4/25
  else if z < 2 then 1/40
  else 1/1000

/-- `calculate_stockout_risk(product_id, store_id, current_stock, days)` from
`utils/inventory_optimizer.py`.  With zero forecast variability the
probability is the deterministic step function; the returned
`stockout_probability` field is `round(probability * 100, 1)` (a percentage).
`math.sqrt(days)` raises for negative `days` when the positive-variance
branch is taken. -/
def calculate_stockout_risk {S : Type} (sq : ℚ → ℚ) (R : PyRandom S)
    (product_id store_id : ℤ) (current_stock : ℚ) (days : ℤ)
    (today : ℤ) (sInit : S) : StockoutReturn × S :=
  let pr := predict_demand sq R product_id store_id days today sInit
  match pr.1 with
  | .err e => (.err e, pr.2)
  | .ok d =>
    let total_demand := (d.total_demand : ℚ)
    let avg_daily_demand := d.avg_daily_demand
    let std_dev := d.std_dev
    let days_until_stockout : Option ℚ :=
      if 0 < avg_daily_demand then some (current_stock / avg_daily_demand)
      else Option.none
    if 0 < std_dev ∧ days < 0 then (.err "math domain error", pr.2)
    else
      let stockout_probability :=
        if 0 < std_dev then
          stockoutTable ((current_stock - total_demand) / (std_dev * sq (days : ℚ)))
        else if current_stock < total_demand then 1 else 0
      let risk_level :=
        if 7/10 < stockout_probability then "high"
        else if 3/10 < stockout_probability then "medium"
        else "low"
      (.ok { product_id := product_id, store_id := store_id,
             current_stock := current_stock,
             forecasted_demand := rne total_demand,
             avg_daily_demand := roundTo 2 avg_daily_demand,
             days_until_stockout := days_until_stockout.map (roundTo 1),
             stockout_probability := roundTo 1 (stockout_probability * 100),
             risk_level := risk_level,
             expected_remaining_stock := rne (max 0 (current_stock - total_demand)),
             days := days }, pr.2)

/-! ## `utils/inventory_optimizer.py` : `optimize_inventory_allocation` -/

/-- A per-store demand record collected by `optimize_inventory_allocation`
(the store id, the forecast `total_demand`, and the scaled standard
deviation, which is computed but never used downstream). -/
structure StoreDemandEntry where
  store_id : ℤ
  demand : ℤ
  std_dev : ℚ
deriving DecidableEq, Repr

/-- The per-store demand collection loop: one `predict_demand` call per
store over a 30-day horizon, skipping stores whose forecast errors. -/
def storeDemands {S : Type} (sq : ℚ → ℚ) (R : PyRandom S) (product_id today : ℤ) :
    List ℤ → S → List StoreDemandEntry × S
  | [], s => ([], s)
  | store_id :: rest, s =>
    let pr := predict_demand sq R product_id store_id 30 today s
    match pr.1 with
    | .ok d =>
      let r := storeDemands sq R product_id today rest pr.2
      (⟨store_id, d.total_demand, d.std_dev * sq 30⟩ :: r.1, r.2)
    | .err _ => storeDemands sq R product_id today rest pr.2

/-- One entry of the allocation list. -/
structure AllocationEntry where
  store_id : ℤ
  allocation : ℤ
  demand : ℤ
  coverage : ℤ
deriving DecidableEq, Repr

/-- `round(allocation / demand * 100 if demand > 0 else 100)`. -/
def coverageOf (allocation demand : ℤ) : ℤ :=
  if 0 < demand then rne ((allocation : ℚ) / (demand : ℚ) * 100) else 100

/-- `allocation[i]["allocation"] += 1` followed by the coverage
recomputation, at position `i`. -/
def bumpAt : List AllocationEntry → ℕ → List AllocationEntry
  | [], _ => []
  | a :: rest, 0 =>
    { a with allocation := a.allocation + 1,
             coverage := coverageOf (a.allocation + 1) a.demand } :: rest
  | a :: rest, Nat.succ i => a :: bumpAt rest i

/-- `for i in range(k): allocation[i % len(allocation)] += 1` starting at
iteration index `i`. -/
def roundRobin : List AllocationEntry → ℕ → ℕ → List AllocationEntry
  | l, _, 0 => l
  | l, i, Nat.succ k => roundRobin (bumpAt l (i % l.length)) (i + 1) k

/-- The normal (non-error) dictionary returned by
`optimize_inventory_allocation`. -/
structure AllocationOk where
  product_id : ℤ
  total_stock : ℤ
  total_demand : ℤ
  coverage_pct : ℤ
  allocation : List AllocationEntry
  allocation_strategy : String
deriving DecidableEq, Repr

/-- Return value of `optimize_inventory_allocation`. -/
inductive AllocationReturn where
  | ok : AllocationOk → AllocationReturn
  | err : String → AllocationReturn
deriving DecidableEq, Repr

def AllocationReturn.isOk : AllocationReturn → Bool
  | .ok _ => true
  | .err _ => false

def AllocationReturn.getOk : AllocationReturn → AllocationOk
  | .ok r => r
  | .err _ =>
    { product_id := 0, total_stock := 0, total_demand := 0, coverage_pct := 0,
      allocation := [], allocation_strategy := "" }

/-- The surplus branch of `optimize_inventory_allocation` (`total demand ≤
total stock`): `ceil` per store, then round-robin distribution of any
positive remainder. -/
def surplusAlloc (store_demand : List StoreDemandEntry) (total_stock : ℤ) :
    List AllocationEntry :=
  let alloc0 := store_demand.map (fun e =>
    ({ store_id := e.store_id, allocation := ⌈((e.demand : ℤ) : ℚ)⌉,
       demand := rne ((e.demand : ℤ) : ℚ),
       coverage := coverageOf ⌈((e.demand : ℤ) : ℚ)⌉ e.demand } : AllocationEntry))
  let remaining := total_stock - (alloc0.map (fun a => a.allocation)).sum
  if 0 < remaining ∧ alloc0.length ≠ 0 then
    roundRobin alloc0 0 remaining.toNat
  else alloc0

/-- The scarcity branch of `optimize_inventory_allocation` (`total demand >
total stock`): proportional floors, stable sort by ascending coverage, then
the remainder distributed round-robin from the lowest-coverage store. -/
def scarcityAlloc (store_demand : List StoreDemandEntry) (total_stock : ℤ) :
    List AllocationEntry :=
  let total_demand : ℤ := (store_demand.map (fun e => e.demand)).sum
  let alloc0 := store_demand.map (fun e =>
    ({ store_id := e.store_id,
       allocation := ⌊(total_stock : ℚ) * ((e.demand : ℚ) / (total_demand : ℚ))⌋,
       demand := rne ((e.demand : ℤ) : ℚ),
       coverage := coverageOf
         ⌊(total_stock : ℚ) * ((e.demand : ℚ) / (total_demand : ℚ))⌋
         e.demand } : AllocationEntry))
  let remaining := total_stock - (alloc0.map (fun a => a.allocation)).sum
  let sorted := alloc0.insertionSort (fun x y => x.coverage ≤ y.coverage)
  roundRobin sorted 0 remaining.toNat

/-- The allocation block of `optimize_inventory_allocation`: the surplus or
scarcity branch, followed by the final sort by store id. -/
def allocatePipeline (store_demand : List StoreDemandEntry) (total_stock : ℤ) :
    List AllocationEntry :=
  let total_demand : ℤ := (store_demand.map (fun e => e.demand)).sum
  let allocation :=
    if total_demand ≤ total_stock then surplusAlloc store_demand total_stock
    else scarcityAlloc store_demand total_stock
  allocation.insertionSort (fun x y => x.store_id ≤ y.store_id)

/-- `optimize_inventory_allocation(product_id, store_ids, total_stock)` from
`utils/inventory_optimizer.py`: one 30-day forecast per store, then the
allocation pipeline. -/
def optimize_inventory_allocation {S : Type} (sq : ℚ → ℚ) (R : PyRandom S)
    (product_id : ℤ) (store_ids : List ℤ) (total_stock : ℤ)
    (today : ℤ) (sInit : S) : AllocationReturn × S :=
  let sd := storeDemands sq R product_id today store_ids sInit
  let store_demand := sd.1
  if store_demand = [] then
    (.err "Could not retrieve demand data for any store", sd.2)
  else
    let total_demand : ℤ := (store_demand.map (fun e => e.demand)).sum
    let allocation := allocatePipeline store_demand total_stock
    (.ok { product_id := product_id, total_stock := total_stock,
           total_demand := rne ((total_demand : ℤ) : ℚ),
           coverage_pct :=
             if 0 < total_demand then
               rne ((total_stock : ℚ) / (total_demand : ℚ) * 100)
             else 100,
           allocation := allocation,
           allocation_strategy :=
             if total_stock < total_demand then "demand_proportional"
             else "demand_based" }, sd.2)

/-! ## Python value universe for the dictionary-iteration bug

`calculate_optimal_price` and `calculate_promotion_impact` compute
`base_demand = sum(p.get('demand', 0) for p in base_predictions)` where
`base_predictions` is the *dictionary* returned by `predict_demand`.
Iterating a Python dictionary yields its keys (strings), and calling
`.get` on a string raises `AttributeError`.  The tiny universe below models
exactly that much of Python semantics. -/

/-- A Python value, as far as the generator expression needs. -/
inductive PyVal where
  | int : ℤ → PyVal
  | rat : ℚ → PyVal
  | str : String → PyVal
  | list : List PyVal → PyVal
  | dict : List (String × PyVal) → PyVal

/-- Iteration: a list yields its elements, a dictionary yields its keys. -/
def pyIter : PyVal → Except String (List PyVal)
  | .list xs => .ok xs
  | .dict kvs => .ok (kvs.map (fun kv => .str kv.1))
  | _ => .error "TypeError: object is not iterable"

/-- `p.get(key, default)`: defined on dictionaries, an `AttributeError` on
anything else (in particular on the string keys a dictionary yields). -/
def pyGet : PyVal → String → PyVal → Except String PyVal
  | .dict kvs, key, dflt =>
    .ok (match kvs.find? (fun kv => kv.1 == key) with
         | some kv => kv.2
         | Option.none => dflt)
  | _, _, _ => .error "AttributeError: object has no attribute get"

/-- Numeric coercion used by `sum`. -/
def pyNum : PyVal → Except String ℚ
  | .int n => .ok (n : ℚ)
  | .rat q => .ok q
  | _ => .error "TypeError: unsupported operand type"

/-- `sum(p.get('demand', 0) for p in v)`. -/
def pySumDemand (v : PyVal) : Except String ℚ := do
  let xs ← pyIter v
  xs.foldlM (fun acc p => do
    let d ← pyGet p "demand" (.int 0)
    let q ← pyNum d
    pure (acc + q)) 0

/-- The dictionary view of one daily prediction record. -/
def Prediction.toPy (p : Prediction) : PyVal :=
  .dict [("day", .int p.day), ("date", .int p.date), ("demand", .rat p.demand)]

/-- The dictionary view of the normal `predict_demand` result, with its keys
in insertion order. -/
def PredictOk.toPy (r : PredictOk) : PyVal :=
  .dict [("product_id", .int r.product_id),
         ("store_id", .int r.store_id),
         ("days", .int r.days),
         ("total_demand", .int r.total_demand),
         ("avg_daily_demand", .rat r.avg_daily_demand),
         ("std_dev", .rat r.std_dev),
         ("coefficient_of_variation", .rat r.coefficient_of_variation),
         ("daily_predictions", .list (r.daily_predictions.map Prediction.toPy))]

/-- The dictionary view of any `predict_demand` return value. -/
def PredictReturn.toPy : PredictReturn → PyVal
  | .ok r => r.toPy
  | .err e => .dict [("error", .str e)]

theorem pySumDemand_predictOk (r : PredictOk) :
    pySumDemand r.toPy = .error "AttributeError: object has no attribute get" := rfl

/-! ## `utils/price_optimizer.py` -/

/-- The pricing metrics supplied by the data layer (`get_pricing_metrics`).
The metrics source itself is outside the optimizer; a missing dictionary is
`Option.none` and missing keys are `Option.none` fields, with the defaults
applied exactly where the source applies them. -/
structure PricingMetrics where
  min_price : Option ℚ
  max_price : Option ℚ
  competitor_price : Option ℚ
  elasticity : Option ℚ
  margin_target : Option ℚ
  promotion_boost : Option ℚ
deriving DecidableEq, Repr

/-- The fallback metrics dictionary built when no metrics are found (it has
no `promotion_boost` key). -/
def defaultMetrics (current_price : ℚ) : PricingMetrics :=
  { min_price := some (current_price * (4/5)),
    max_price := some (current_price * (6/5)),
    competitor_price := some (current_price * (19/20)),
    elasticity := some (-(3/2)),
    margin_target := some (3/10),
    promotion_boost := Option.none }

/-- The per-candidate expected-demand computation of
`calculate_optimal_price` (lines 92–107): the *linear* elasticity
approximation `base_demand * (1 + elasticity * Δp/p)` when an elasticity is
available and the current price is positive, a piecewise linear fallback
otherwise, clamped below at 0.  (The fallback divides by `current_price`;
`ℚ` division by zero is 0 where Python would raise, but no theorem relies
on that degenerate case.) -/
def expectedDemandAtPrice (elasticity current_price base_demand price : ℚ) : ℚ :=
  let d :=
    if elasticity ≠ 0 ∧ 0 < current_price then
      let price_change_pct := (price - current_price) / current_price
      let demand_change_pct := elasticity * price_change_pct
      base_demand * (1 + demand_change_pct)
    else
      let factor :=
        if current_price < price then
          1 - ((price - current_price) / current_price) * (1/2)
        else
          1 + ((current_price - price) / current_price) * (3/10)
      base_demand * factor
  max 0 d

/-- The constant-elasticity demand model in the spec's words:
`base_demand * (candidate_price / base_price) ^ elasticity`, clamped at 0
(stated for an integer elasticity exponent).  This definition follows the
specification, for comparison with `expectedDemandAtPrice` from the source. -/
def specConstantElasticityDemand (base_demand base_price candidate_price : ℚ)
    (elasticity : ℤ) : ℚ :=
  max 0 (base_demand * (candidate_price / base_price) ^ elasticity)

/-- One evaluation record of `calculate_optimal_price`. -/
structure PriceEvaluation where
  price : ℚ
  expected_demand : ℤ
  expected_profit : ℚ
  margin : ℚ
  price_diff : Option ℚ
  price_diff_pct : Option ℚ
deriving DecidableEq, Repr

/-- The normal (non-error) dictionary returned by `calculate_optimal_price`. -/
structure PriceOk where
  product_id : ℤ
  store_id : ℤ
  current_price : ℚ
  optimal_price : ℚ
  estimated_cost : ℚ
  expected_demand : ℤ
  expected_profit : ℚ
  margin : ℚ
  min_price : ℚ
  max_price : ℚ
  competitor_price : Option ℚ
  price_elasticity : ℚ
  evaluations : List PriceEvaluation
deriving DecidableEq, Repr

/-- Return value of `calculate_optimal_price`: the error dictionary carries
`product_id`, `store_id`, `current_price` and the message. -/
inductive PriceReturn where
  | ok : PriceOk → PriceReturn
  | err : ℤ → ℤ → ℚ → String → PriceReturn
deriving DecidableEq, Repr

def PriceReturn.hasError : PriceReturn → Bool
  | .ok _ => false
  | .err _ _ _ _ => true

/-- `np.linspace a b n` (with division by `n - 1`, exact on rationals). -/
def linspace (a b : ℚ) (n : ℕ) : List ℚ :=
  (List.range n).map (fun i => a + (b - a) * (i : ℚ) / ((n : ℚ) - 1))

/-- `np.unique`: ascending sort, duplicates removed. -/
def npUnique (l : List ℚ) : List ℚ :=
  (l.insertionSort (· ≤ ·)).dedup

/-- The candidate-evaluation fold of `calculate_optimal_price`: skip
candidates outside `[min_price, max_price]`, evaluate demand, profit and
margin, and track the best (strictly higher) profit. -/
def evalFold (min_price max_price elasticity current_price base_demand estimated_cost : ℚ)
    (competitor_price : Option ℚ)
    (acc : List PriceEvaluation × Option (ℚ × ℚ × ℚ)) (price : ℚ) :
    List PriceEvaluation × Option (ℚ × ℚ × ℚ) :=
  if price < min_price ∨ max_price < price then acc
  else
    let expected_demand := expectedDemandAtPrice elasticity current_price base_demand price
    let profit_per_unit := price - estimated_cost
    let expected_profit := profit_per_unit * expected_demand
    let margin := if 0 < price then profit_per_unit / price else 0
    let price_diff : Option ℚ := competitor_price.map (fun cp => price - cp)
    let price_diff_pct : Option ℚ :=
      competitor_price.map (fun cp => if 0 < cp then (price - cp) / cp * 100 else 0)
    let ev : PriceEvaluation :=
      { price := roundTo 2 price,
        expected_demand := rne expected_demand,
        expected_profit := roundTo 2 expected_profit,
        margin := roundTo 2 margin,
        price_diff := price_diff.map (roundTo 2),
        price_diff_pct := price_diff_pct.map (roundTo 1) }
    let best :=
      match acc.2 with
      | Option.none => some (price, expected_profit, expected_demand)
      | some (bp, bprof, bd) =>
        if bprof < expected_profit then some (price, expected_profit, expected_demand)
        else some (bp, bprof, bd)
    (acc.1 ++ [ev], best)

/-- `calculate_optimal_price(product_id, store_id, current_price)` from
`utils/price_optimizer.py`.  `metricsIn` is the dictionary returned by
`get_pricing_metrics` (`Option.none` when falsy).  The base-demand step
iterates the dictionary returned by `predict_demand`; when it raises, the
handler returns the error dictionary. -/
def calculate_optimal_price {S : Type} (sq : ℚ → ℚ) (R : PyRandom S)
    (metricsIn : Option PricingMetrics) (product_id store_id : ℤ)
    (current_price : ℚ) (today : ℤ) (sInit : S) : PriceReturn :=
  let metrics :=
    match metricsIn with
    | Option.none => defaultMetrics current_price
    | some m => m
  let min_price := metrics.min_price.getD (current_price * (4/5))
  let max_price := metrics.max_price.getD (current_price * (6/5))
  let competitor_price := metrics.competitor_price
  let elasticity := metrics.elasticity.getD (-(3/2))
  let margin_target := metrics.margin_target.getD (3/10)
  let base_predictions := (predict_demand sq R product_id store_id 30 today sInit).1
  match pySumDemand base_predictions.toPy with
  | .error e =>
    .err product_id store_id current_price ("Failed to calculate optimal price: " ++ e)
  | .ok base_demand =>
    let estimated_cost := current_price * (1 - margin_target)
    let range0 := linspace min_price max_price 10
    let range1 :=
      match competitor_price with
      | some cp => range0 ++ [cp * (19/20), cp, cp * (21/20)]
      | Option.none => range0
    let price_range := npUnique (range1 ++ [current_price])
    let folded := price_range.foldl
      (evalFold min_price max_price elasticity current_price base_demand
        estimated_cost competitor_price) ([], Option.none)
    match folded.2 with
    | Option.none =>
      .ok { product_id := product_id, store_id := store_id,
            current_price := current_price,
            optimal_price := roundTo 2 current_price,
            estimated_cost := roundTo 2 estimated_cost,
            expected_demand := rne base_demand,
            expected_profit := roundTo 2 ((current_price - estimated_cost) * base_demand),
            margin :=
              if 0 < current_price then
                roundTo 2 ((current_price - estimated_cost) / current_price)
              else 0,
            min_price := roundTo 2 min_price, max_price := roundTo 2 max_price,
            competitor_price := competitor_price.map (roundTo 2),
            price_elasticity := elasticity, evaluations := folded.1 }
    | some (best_price, best_profit, best_demand) =>
      .ok { product_id := product_id, store_id := store_id,
            current_price := current_price,
            optimal_price := roundTo 2 best_price,
            estimated_cost := roundTo 2 estimated_cost,
            expected_demand := rne best_demand,
            expected_profit := roundTo 2 best_profit,
            margin :=
              if 0 < best_price then
                roundTo 2 ((best_price - estimated_cost) / best_price)
              else 0,
            min_price := roundTo 2 min_price, max_price := roundTo 2 max_price,
            competitor_price := competitor_price.map (roundTo 2),
            price_elasticity := elasticity, evaluations := folded.1 }

/-- The normal (non-error) dictionary returned by
`calculate_promotion_impact`. -/
structure PromoOk where
  product_id : ℤ
  store_id : ℤ
  current_price : ℚ
  promo_price : ℚ
  discount_pct : ℚ
  base_demand : ℤ
  expected_demand : ℤ
  demand_increase_pct : ℚ
  base_profit : ℚ
  promo_profit : ℚ
  profit_impact : ℚ
  profit_impact_pct : ℚ
  cannibalization_rate : ℚ
  adjusted_profit_impact : ℚ
  is_profitable : Bool
deriving DecidableEq, Repr

/-- Return value of `calculate_promotion_impact`: the error dictionary
carries `product_id`, `store_id`, `current_price`, `discount_pct` and the
message. -/
inductive PromoReturn where
  | ok : PromoOk → PromoReturn
  | err : ℤ → ℤ → ℚ → ℚ → String → PromoReturn
deriving DecidableEq, Repr

def PromoReturn.hasError : PromoReturn → Bool
  | .ok _ => false
  | .err _ _ _ _ _ => true

/-- `calculate_promotion_impact(product_id, store_id, current_price,
discount_pct)` from `utils/price_optimizer.py`.  The same base-demand step
iterates the `predict_demand` dictionary, so the same failure path applies. -/
def calculate_promotion_impact {S : Type} (sq : ℚ → ℚ) (R : PyRandom S)
    (metricsIn : Option PricingMetrics) (product_id store_id : ℤ)
    (current_price discount_pct : ℚ) (today : ℤ) (sInit : S) : PromoReturn :=
  let metrics :=
    match metricsIn with
    | Option.none => defaultMetrics current_price
    | some m => m
  let elasticity := metrics.elasticity.getD (-(3/2))
  let promotion_boost := metrics.promotion_boost.getD (3/2)
  let margin_target := metrics.margin_target.getD (3/10)
  let promo_price := current_price * (1 - discount_pct)
  let estimated_cost := current_price * (1 - margin_target)
  let base_predictions := (predict_demand sq R product_id store_id 30 today sInit).1
  match pySumDemand base_predictions.toPy with
  | .error e =>
    .err product_id store_id current_price discount_pct
      ("Failed to calculate promotion impact: " ++ e)
  | .ok base_demand =>
    let expected_demand :=
      if elasticity ≠ 0 ∧ 0 < current_price then
        let price_change_pct := -discount_pct
        let demand_change_pct0 := elasticity * price_change_pct
        let demand_change_pct :=
          if 1 < promotion_boost then demand_change_pct0 * promotion_boost
          else demand_change_pct0
        base_demand * (1 + demand_change_pct)
      else
        base_demand * (1 + discount_pct * 5)
    let expected_demand := max 0 expected_demand
    let base_profit := (current_price - estimated_cost) * base_demand
    let promo_profit := (promo_price - estimated_cost) * expected_demand
    let profit_impact := promo_profit - base_profit
    let cannibalization_rate : ℚ := 3/10
    let adjusted_demand_increase := expected_demand - base_demand
    let cannibalized_demand := adjusted_demand_increase * cannibalization_rate
    let future_lost_profit := cannibalized_demand * (current_price - estimated_cost)
    let adjusted_profit_impact := profit_impact - future_lost_profit
    .ok { product_id := product_id, store_id := store_id,
          current_price := current_price,
          promo_price := roundTo 2 promo_price,
          discount_pct := roundTo 1 (discount_pct * 100),
          base_demand := rne base_demand,
          expected_demand := rne expected_demand,
          demand_increase_pct :=
            if 0 < base_demand then
              roundTo 1 ((expected_demand - base_demand) / base_demand * 100)
            else 0,
          base_profit := roundTo 2 base_profit,
          promo_profit := roundTo 2 promo_profit,
          profit_impact := roundTo 2 profit_impact,
          profit_impact_pct :=
            if 0 < base_profit then roundTo 1 (profit_impact / base_profit * 100)
            else 0,
          cannibalization_rate := cannibalization_rate,
          adjusted_profit_impact := roundTo 2 adjusted_profit_impact,
          is_profitable := decide (0 < adjusted_profit_impact) }

/-! ## Basic facts about the forecast loop and `predict_demand` -/

theorem forecastStep_fst_day {S : Type} (R : PyRandom S) (b t se nl : ℚ)
    (today : ℤ) (day : ℕ) (s : S) :
    (forecastStep R b t se nl today day s).1.day = (day : ℤ) + 1 := rfl

theorem forecastStep_snd_nonneg {S : Type} (R : PyRandom S) (b t se nl : ℚ)
    (today : ℤ) (day : ℕ) (s : S) :
    0 ≤ (forecastStep R b t se nl today day s).2.1 := by
  unfold forecastStep
  exact le_max_left 0 _

theorem forecastLoop_length {S : Type} (R : PyRandom S) (b t se nl : ℚ) (today : ℤ) :
    ∀ (ds : List ℕ) (s : S), ((forecastLoop R b t se nl today ds s).1).length = ds.length := by
  intro ds
  induction ds with
  | nil => intro s; rfl
  | cons d rest ih =>
    intro s
    simp only [forecastLoop, List.length_cons]
    rw [ih]

theorem forecastLoop_day_map {S : Type} (R : PyRandom S) (b t se nl : ℚ) (today : ℤ) :
    ∀ (ds : List ℕ) (s : S),
      ((forecastLoop R b t se nl today ds s).1).map (fun p => p.day) =
        ds.map (fun (d : ℕ) => ((d : ℤ) + 1)) := by
  intro ds
  induction ds with
  | nil => intro s; rfl
  | cons d rest ih =>
    intro s
    simp only [forecastLoop, List.map_cons, forecastStep_fst_day, ih]

theorem forecastLoop_cum_nonneg {S : Type} (R : PyRandom S) (b t se nl : ℚ) (today : ℤ) :
    ∀ (ds : List ℕ) (s : S), 0 ≤ (forecastLoop R b t se nl today ds s).2.1 := by
  intro ds
  induction ds with
  | nil => intro s; exact le_refl 0
  | cons d rest ih =>
    intro s
    simp only [forecastLoop]
    have h1 := forecastStep_snd_nonneg R b t se nl today d s
    have h2 := ih (forecastStep R b t se nl today d s).2.2
    positivity

theorem predictLoopOf_cum_nonneg {S : Type} (R : PyRandom S) (pid sid days today : ℤ) :
    0 ≤ (predictLoopOf R pid sid days today).2.1 := by
  unfold predictLoopOf
  exact forecastLoop_cum_nonneg _ _ _ _ _ _ _ _

/-- Field-level characterization of a successful `predict_demand` call. -/
theorem predict_demand_ok_fields {S : Type} (sq : ℚ → ℚ) (R : PyRandom S)
    (pid sid days today : ℤ) (sInit : S) (h : days ≠ 0) :
    (predict_demand sq R pid sid days today sInit).1 =
      .ok { product_id := pid, store_id := sid, days := days,
            total_demand := rne (predictLoopOf R pid sid days today).2.1,
            avg_daily_demand :=
              roundTo 2 ((predictLoopOf R pid sid days today).2.1 / (days : ℚ)),
            std_dev := roundTo 2 (sq
              ((((predictLoopOf R pid sid days today).1.map (fun p =>
                (p.demand - (predictLoopOf R pid sid days today).2.1 / (days : ℚ)) ^ 2)).sum)
                / (days : ℚ))),
            coefficient_of_variation :=
              if 0 < (predictLoopOf R pid sid days today).2.1 / (days : ℚ) then
                roundTo 2 (sq
                  ((((predictLoopOf R pid sid days today).1.map (fun p =>
                    (p.demand - (predictLoopOf R pid sid days today).2.1 / (days : ℚ)) ^ 2)).sum)
                    / (days : ℚ))
                  / ((predictLoopOf R pid sid days today).2.1 / (days : ℚ)))
              else 0,
            daily_predictions := (predictLoopOf R pid sid days today).1 } := by
  unfold predict_demand
  simp [h]

theorem predict_demand_err_of_zero {S : Type} (sq : ℚ → ℚ) (R : PyRandom S)
    (pid sid today : ℤ) (sInit : S) :
    (predict_demand sq R pid sid 0 today sInit).1 =
      .err "Failed to predict demand: division by zero" := by
  unfold predict_demand
  simp

theorem predict_demand_isOk_iff {S : Type} (sq : ℚ → ℚ) (R : PyRandom S)
    (pid sid days today : ℤ) (sInit : S) :
    ((predict_demand sq R pid sid days today sInit).1.isOk = true) ↔ days ≠ 0 := by
  constructor
  · intro hOk hz
    subst hz
    rw [predict_demand_err_of_zero] at hOk
    simp [PredictReturn.isOk] at hOk
  · intro h
    rw [predict_demand_ok_fields sq R pid sid days today sInit h]
    rfl

theorem predict_demand_total_nonneg {S : Type} (sq : ℚ → ℚ) (R : PyRandom S)
    (pid sid days today : ℤ) (sInit : S) (d : PredictOk)
    (h : (predict_demand sq R pid sid days today sInit).1 = .ok d) :
    0 ≤ d.total_demand := by
  have hz : days ≠ 0 := by
    intro hz; subst hz
    rw [predict_demand_err_of_zero] at h
    exact PredictReturn.noConfusion h
  rw [predict_demand_ok_fields sq R pid sid days today sInit hz] at h
  injection h with h'
  subst h'
  exact rne_nonneg (predictLoopOf_cum_nonneg R pid sid days today)

/-! ## Claim C9: determinism of `predict_demand` under reseeding -/

/-- C9: two calls to `predict_demand` with the same `product_id`,
`store_id`, `days` (and the same current date) return identical results,
whatever the incoming generator states: the generator is reseeded from
`product_id * 1000 + store_id` at the start of every call, so every draw is
a deterministic function of the inputs and the prior state is discarded. -/
theorem predict_demand_deterministic_reseed {S : Type} (sq : ℚ → ℚ) (R : PyRandom S)
    (pid sid days today : ℤ) (s1 s2 : S) :
    (predict_demand sq R pid sid days today s1).1 =
      (predict_demand sq R pid sid days today s2).1 := rfl

/-! ## Claim C3: forecast horizon behaviour -/

/-- C3 (counterexample): `predict_demand` with horizon `0` does *not*
return an empty prediction sequence; the division `total_demand / days`
raises `ZeroDivisionError` and the handler returns the error result. -/
theorem predict_demand_zero_days_error_counterexample :
    (predict_demand ratSqrt unitGen 1 1 0 0 ()).1 =
      .err "Failed to predict demand: division by zero" ∧
    (predict_demand ratSqrt unitGen 1 1 0 0 ()).1.isOk = false := by
  constructor
  · rfl
  · rfl

/-- C3 (amended): `predict_demand` with horizon `days = N ≥ 1` returns a
normal result whose `daily_predictions` has exactly `N` points numbered
`1..N`; with `N < 0` it returns a normal result with an *empty* sequence;
but with `N = 0` it returns an error result (ZeroDivisionError), not an
empty sequence. -/
theorem predict_demand_horizon_amended {S : Type} (sq : ℚ → ℚ) (R : PyRandom S)
    (pid sid days today : ℤ) (sInit : S) :
    ((predict_demand sq R pid sid days today sInit).1.isOk = true ↔ days ≠ 0) ∧
    (∀ d : PredictOk, (predict_demand sq R pid sid days today sInit).1 = .ok d →
      d.daily_predictions.length = days.toNat ∧
      d.daily_predictions.map (fun p => p.day) =
        (List.range days.toNat).map (fun (i : ℕ) => ((i : ℤ) + 1))) := by
  refine ⟨predict_demand_isOk_iff sq R pid sid days today sInit, ?_⟩
  intro d hd
  have hz : days ≠ 0 := by
    intro hzero
    subst hzero
    rw [predict_demand_err_of_zero] at hd
    exact PredictReturn.noConfusion hd
  rw [predict_demand_ok_fields sq R pid sid days today sInit hz] at hd
  injection hd with hd'
  subst hd'
  constructor
  · show (predictLoopOf R pid sid days today).1.length = days.toNat
    unfold predictLoopOf
    rw [forecastLoop_length]
    exact List.length_range days.toNat
  · show (predictLoopOf R pid sid days today).1.map (fun p => p.day) = _
    unfold predictLoopOf
    exact forecastLoop_day_map _ _ _ _ _ _ _ _

/-- C3 (witness): a concrete instance of the amended horizon theorem at
`days = 3`. -/
theorem predict_demand_horizon_amended_witness :
    ((predict_demand ratSqrt unitGen 5 7 3 0 ()).1.isOk = true) ∧
    ((predict_demand ratSqrt unitGen 5 7 3 0 ()).1.getOk.daily_predictions.length = 3) := by
  constructor
  · exact (predict_demand_horizon_amended ratSqrt unitGen 5 7 3 0 ()).1.mpr (by decide)
  · have h := ((predict_demand_horizon_amended ratSqrt unitGen 5 7 3 0 ()).2
      ((predict_demand ratSqrt unitGen 5 7 3 0 ()).1.getOk) (by rfl)).1
    simpa using h

/-! ## Claim C1: the price optimizer's base-demand step always fails -/

/-- C1: whenever `predict_demand` returns its normal dictionary,
`calculate_optimal_price` and `calculate_promotion_impact` both return the
error dictionary: they iterate that dictionary as if it were a list of
per-day records, `.get` on the iterated string keys raises
`AttributeError`, and the handler converts that into the error result. -/
theorem optimal_price_and_promotion_error_on_ok_forecast {S : Type}
    (sq : ℚ → ℚ) (R : PyRandom S) (metricsIn : Option PricingMetrics)
    (pid sid : ℤ) (current_price discount_pct : ℚ) (today : ℤ) (sInit : S)
    (d : PredictOk)
    (hpred : (predict_demand sq R pid sid 30 today sInit).1 = .ok d) :
    (calculate_optimal_price sq R metricsIn pid sid current_price today sInit).hasError
      = true ∧
    (calculate_promotion_impact sq R metricsIn pid sid current_price discount_pct
      today sInit).hasError = true := by
  constructor
  · unfold calculate_optimal_price
    rw [hpred]
    simp only [PredictReturn.toPy, pySumDemand_predictOk, PriceReturn.hasError]
  · unfold calculate_promotion_impact
    rw [hpred]
    simp only [PredictReturn.toPy, pySumDemand_predictOk, PromoReturn.hasError]

/-- C1 (witness): a concrete instance with the trivial generator. -/
theorem optimal_price_and_promotion_error_witness :
    (calculate_optimal_price ratSqrt unitGen Option.none 1 1 100 0 ()).hasError = true ∧
    (calculate_promotion_impact ratSqrt unitGen Option.none 1 1 100 (1/10) 0 ()).hasError
      = true :=
  optimal_price_and_promotion_error_on_ok_forecast ratSqrt unitGen Option.none 1 1
    100 (1/10) 0 () ((predict_demand ratSqrt unitGen 1 1 30 0 ()).1.getOk) (by rfl)

/-! ## Claim C10: the coefficient-of-variation formula -/

/-- Field-level characterization of a successful `get_historical_sales`
call. -/
theorem get_historical_sales_ok_fields {S : Type} (sq : ℚ → ℚ) (R : PyRandom S)
    (pid sid days todayDow : ℤ) (sInit : S) (h : days ≠ 0) :
    (get_historical_sales sq R pid sid days todayDow sInit).1 =
      .ok { product_id := pid, store_id := sid, days := days,
            total_sales := rne (historyLoopOf R pid sid days todayDow).2.1,
            avg_daily_sales :=
              roundTo 2 ((historyLoopOf R pid sid days todayDow).2.1 / (days : ℚ)),
            std_dev := roundTo 2 (sq
              ((((historyLoopOf R pid sid days todayDow).1.map (fun p =>
                (p.sales - (historyLoopOf R pid sid days todayDow).2.1 / (days : ℚ)) ^ 2)).sum)
                / (days : ℚ))),
            coefficient_of_variation :=
              if 0 < (historyLoopOf R pid sid days todayDow).2.1 / (days : ℚ) then
                roundTo 2 (sq
                  ((((historyLoopOf R pid sid days todayDow).1.map (fun p =>
                    (p.sales - (historyLoopOf R pid sid days todayDow).2.1 / (days : ℚ)) ^ 2)).sum)
                    / (days : ℚ))
                  / ((historyLoopOf R pid sid days todayDow).2.1 / (days : ℚ)))
              else 0,
            daily_sales := (historyLoopOf R pid sid days todayDow).1 } := by
  unfold get_historical_sales
  simp [h]

/-- C10 (amended): in the summaries of `predict_demand` and
`get_historical_sales`, the reported `coefficient_of_variation` equals
`round(std_dev / avg, 2)` computed from the *unrounded* standard deviation
and mean — where the mean is that of the unrounded daily values and the
standard deviation is the square root of the mean squared deviation of the
*rounded* stored daily values from that mean — and equals `0` when the mean
is not positive.  The identity holds before reporting rounding; it does not
in general hold between the independently rounded reported fields. -/
theorem cv_formula_amended :
    (∀ {S : Type} (sq : ℚ → ℚ) (R : PyRandom S) (pid sid days today : ℤ) (sInit : S)
      (d : PredictOk), (predict_demand sq R pid sid days today sInit).1 = .ok d →
      d.coefficient_of_variation =
        (if 0 < (predictLoopOf R pid sid days today).2.1 / (days : ℚ) then
          roundTo 2 (sq
            ((((predictLoopOf R pid sid days today).1.map (fun p =>
              (p.demand - (predictLoopOf R pid sid days today).2.1 / (days : ℚ)) ^ 2)).sum)
              / (days : ℚ))
            / ((predictLoopOf R pid sid days today).2.1 / (days : ℚ)))
        else 0)) ∧
    (∀ {S : Type} (sq : ℚ → ℚ) (R : PyRandom S) (pid sid days todayDow : ℤ) (sInit : S)
      (d : HistOk), (get_historical_sales sq R pid sid days todayDow sInit).1 = .ok d →
      d.coefficient_of_variation =
        (if 0 < (historyLoopOf R pid sid days todayDow).2.1 / (days : ℚ) then
          roundTo 2 (sq
            ((((historyLoopOf R pid sid days todayDow).1.map (fun p =>
              (p.sales - (historyLoopOf R pid sid days todayDow).2.1 / (days : ℚ)) ^ 2)).sum)
              / (days : ℚ))
            / ((historyLoopOf R pid sid days todayDow).2.1 / (days : ℚ)))
        else 0)) := by
  constructor
  · intro S sq R pid sid days today sInit d hd
    have hz : days ≠ 0 := by
      intro hzero
      subst hzero
      rw [predict_demand_err_of_zero] at hd
      exact PredictReturn.noConfusion hd
    rw [predict_demand_ok_fields sq R pid sid days today sInit hz] at hd
    injection hd with hd'
    subst hd'
    rfl
  · intro S sq R pid sid days todayDow sInit d hd
    have hz : days ≠ 0 := by
      intro hzero
      subst hzero
      unfold get_historical_sales at hd
      simp at hd
    rw [get_historical_sales_ok_fields sq R pid sid days todayDow sInit hz] at hd
    injection hd with hd'
    subst hd'
    rfl

section ConcreteEvaluations

attribute [local semireducible] Rat.add Rat.mul Rat.inv Rat.sub Rat.ofScientific

set_option maxRecDepth 1000000

/-- Draw table for the C10 counterexample: both daily demands are exactly
`5.0251`, so the stored (rounded) dailies are `5.0` and `5.0`. -/
def genCvCex : PyRandom (List ℚ) :=
  tableGen (fun n =>
    if n = 1001 then [10, 0, 1/5, 1/10, -(39749/10000), -(39749/10000)] else [])

/-- C10 (counterexample): a concrete `predict_demand` call for which the
reported `coefficient_of_variation` (here `0.0`) differs from
`round(std_dev / avg_daily_demand, 2)` recomputed from the independently
rounded reported fields (here `round(0.03 / 5.03, 2) = 0.01`); moreover the
reported `std_dev` is `0.03` although the stored daily values are both
`5.0`, whose population standard deviation is `0`. -/
theorem cv_rounded_fields_counterexample :
    ((predict_demand ratSqrt genCvCex 1 1 2 0 ([] : List ℚ)).1.isOk = true) ∧
    (0 < (predict_demand ratSqrt genCvCex 1 1 2 0 ([] : List ℚ)).1.getOk.avg_daily_demand) ∧
    ((predict_demand ratSqrt genCvCex 1 1 2 0 ([] : List ℚ)).1.getOk.daily_predictions.map
      (fun p => p.demand) = [5, 5]) ∧
    ((predict_demand ratSqrt genCvCex 1 1 2 0 ([] : List ℚ)).1.getOk.std_dev = 3/100) ∧
    ((predict_demand ratSqrt genCvCex 1 1 2 0 ([] : List ℚ)).1.getOk.coefficient_of_variation
      = 0) ∧
    ((predict_demand ratSqrt genCvCex 1 1 2 0 ([] : List ℚ)).1.getOk.coefficient_of_variation
      ≠ roundTo 2
          ((predict_demand ratSqrt genCvCex 1 1 2 0 ([] : List ℚ)).1.getOk.std_dev /
            (predict_demand ratSqrt genCvCex 1 1 2 0 ([] : List ℚ)).1.getOk.avg_daily_demand)) := by
  refine ⟨?_, ?_, ?_, ?_, ?_, ?_⟩ <;> decide

/-- Draw table for the C10 witness (historical side seeded at
`1 * 2000 + 1`). -/
def genCvWit : PyRandom (List ℚ) :=
  tableGen (fun n =>
    if n = 1001 then [10, 0, 1/5, 1/10, 1, 1]
    else if n = 2001 then [10, 0, 1/5, 1/10, 1, 1] else [])

/-- C10 (witness): concrete instances of both halves of the amended
coefficient-of-variation theorem. -/
theorem cv_formula_amended_witness :
    ((predict_demand ratSqrt genCvWit 1 1 2 0 ([] : List ℚ)).1.getOk.coefficient_of_variation
      = (if 0 < (predictLoopOf genCvWit 1 1 2 0).2.1 / ((2 : ℤ) : ℚ) then
          roundTo 2 (ratSqrt
            ((((predictLoopOf genCvWit 1 1 2 0).1.map (fun p =>
              (p.demand - (predictLoopOf genCvWit 1 1 2 0).2.1 / ((2 : ℤ) : ℚ)) ^ 2)).sum)
              / ((2 : ℤ) : ℚ))
            / ((predictLoopOf genCvWit 1 1 2 0).2.1 / ((2 : ℤ) : ℚ)))
        else 0)) ∧
    ((get_historical_sales ratSqrt genCvWit 1 1 2 0 ([] : List ℚ)).1.getOk.coefficient_of_variation
      = (if 0 < (historyLoopOf genCvWit 1 1 2 0).2.1 / ((2 : ℤ) : ℚ) then
          roundTo 2 (ratSqrt
            ((((historyLoopOf genCvWit 1 1 2 0).1.map (fun p =>
              (p.sales - (historyLoopOf genCvWit 1 1 2 0).2.1 / ((2 : ℤ) : ℚ)) ^ 2)).sum)
              / ((2 : ℤ) : ℚ))
            / ((historyLoopOf genCvWit 1 1 2 0).2.1 / ((2 : ℤ) : ℚ)))
        else 0)) :=
  ⟨cv_formula_amended.1 ratSqrt genCvWit 1 1 2 0 ([] : List ℚ)
      ((predict_demand ratSqrt genCvWit 1 1 2 0 ([] : List ℚ)).1.getOk) (by rfl),
   cv_formula_amended.2 ratSqrt genCvWit 1 1 2 0 ([] : List ℚ)
      ((get_historical_sales ratSqrt genCvWit 1 1 2 0 ([] : List ℚ)).1.getOk) (by rfl)⟩

end ConcreteEvaluations

/-! ## Claim C4: stockout probability bounds -/

theorem stockoutTable_bounds (z : ℚ) :
    0 ≤ stockoutTable z ∧ stockoutTable z ≤ 1 := by
  unfold stockoutTable
  split_ifs <;> norm_num

/-- C4 (amended): the *internal* stockout probability lies in `[0, 1]`, but
the `stockout_probability` field of the returned result is
`round(probability * 100, 1)`, a percentage in `[0, 100]`, not `[0, 1]`.
In the zero-variance case (forecast `std_dev = 0`) the internal probability
is the step function, so the reported field equals `100` exactly when
`current_stock` is less than the total forecast demand and `0` otherwise. -/
theorem stockout_probability_bounds_amended {S : Type} (sq : ℚ → ℚ) (R : PyRandom S)
    (pid sid : ℤ) (current_stock : ℚ) (days today : ℤ) (sInit : S)
    (d : PredictOk) (r : StockoutOk)
    (hpred : (predict_demand sq R pid sid days today sInit).1 = .ok d)
    (hok : (calculate_stockout_risk sq R pid sid current_stock days today sInit).1 = .ok r) :
    0 ≤ r.stockout_probability ∧ r.stockout_probability ≤ 100 ∧
    (d.std_dev = 0 →
      r.stockout_probability = if current_stock < (d.total_demand : ℚ) then 100 else 0) := by
  simp only [calculate_stockout_risk, hpred] at hok
  split at hok
  · exact absurd hok (by simp)
  · simp only at hok
    injection hok with hok'
    subst hok'
    simp only
    set p := (if 0 < d.std_dev then
        stockoutTable ((current_stock - (d.total_demand : ℚ)) / (d.std_dev * sq (days : ℚ)))
      else if current_stock < (d.total_demand : ℚ) then 1 else 0) with hp
    have hpb : 0 ≤ p ∧ p ≤ 1 := by
      rw [hp]
      split_ifs with h1 h2
      · exact stockoutTable_bounds _
      · norm_num
      · norm_num
    have h100 : roundTo 1 ((100 : ℚ)) = 100 := by
      have := roundTo_intCast 1 100
      push_cast at this
      simpa using this
    have h0 : roundTo 1 ((0 : ℚ)) = 0 := by
      have := roundTo_intCast 1 0
      push_cast at this
      simpa using this
    refine ⟨?_, ?_, ?_⟩
    · have : (0 : ℚ) ≤ p * 100 := by nlinarith [hpb.1]
      calc (0 : ℚ) = roundTo 1 0 := h0.symm
        _ ≤ roundTo 1 (p * 100) := roundTo_mono 1 this
    · have : p * 100 ≤ 100 := by nlinarith [hpb.2]
      calc roundTo 1 (p * 100) ≤ roundTo 1 100 := roundTo_mono 1 this
        _ = 100 := h100
    · intro hstd
      rw [hp]
      have hns : ¬ 0 < d.std_dev := by rw [hstd]; exact lt_irrefl 0
      rw [if_neg hns]
      split_ifs with hc
      · simpa using h100
      · simpa using h0

section ConcreteStockout

attribute [local semireducible] Rat.add Rat.mul Rat.inv Rat.sub Rat.ofScientific

set_option maxRecDepth 1000000

/-- Draw table giving a one-day forecast with daily demand exactly `5.0`
(zero variance). -/
def genStockCex : PyRandom (List ℚ) :=
  tableGen (fun n => if n = 1001 then [5, 0, 1/10, 1/20, 1/4] else [])

/-- C4 (counterexample): a concrete zero-variance call with
`current_stock = 2 <` total forecast demand `5`: the claim says the
returned `stockout_probability` is exactly `1.0` and lies in `[0, 1]`, but
the returned field is `100.0` (a percentage). -/
theorem stockout_probability_percent_counterexample :
    ((calculate_stockout_risk ratSqrt genStockCex 1 1 2 1 0 ([] : List ℚ)).1.isOk = true) ∧
    ((predict_demand ratSqrt genStockCex 1 1 1 0 ([] : List ℚ)).1.getOk.std_dev = 0) ∧
    ((2 : ℚ) <
      ((predict_demand ratSqrt genStockCex 1 1 1 0 ([] : List ℚ)).1.getOk.total_demand : ℚ)) ∧
    ((calculate_stockout_risk ratSqrt genStockCex 1 1 2 1 0
        ([] : List ℚ)).1.getOk.stockout_probability = 100) ∧
    ¬ ((calculate_stockout_risk ratSqrt genStockCex 1 1 2 1 0
        ([] : List ℚ)).1.getOk.stockout_probability ≤ 1) := by
  refine ⟨?_, ?_, ?_, ?_, ?_⟩ <;> decide

/-- C4 (witness): the amended bounds theorem instantiated at the concrete
zero-variance call with `current_stock = 3`. -/
theorem stockout_probability_bounds_amended_witness :
    0 ≤ (calculate_stockout_risk ratSqrt genStockCex 1 1 3 1 0
          ([] : List ℚ)).1.getOk.stockout_probability ∧
    (calculate_stockout_risk ratSqrt genStockCex 1 1 3 1 0
          ([] : List ℚ)).1.getOk.stockout_probability ≤ 100 ∧
    ((predict_demand ratSqrt genStockCex 1 1 1 0 ([] : List ℚ)).1.getOk.std_dev = 0 →
      (calculate_stockout_risk ratSqrt genStockCex 1 1 3 1 0
          ([] : List ℚ)).1.getOk.stockout_probability =
        if (3 : ℚ) <
            ((predict_demand ratSqrt genStockCex 1 1 1 0 ([] : List ℚ)).1.getOk.total_demand : ℚ)
          then 100 else 0) :=
  stockout_probability_bounds_amended ratSqrt genStockCex 1 1 3 1 0 ([] : List ℚ)
    ((predict_demand ratSqrt genStockCex 1 1 1 0 ([] : List ℚ)).1.getOk)
    ((calculate_stockout_risk ratSqrt genStockCex 1 1 3 1 0 ([] : List ℚ)).1.getOk)
    (by rfl) (by rfl)

end ConcreteStockout

/-! ## Claims C5 and C6: reorder point and safety stock -/

theorem predictLoopOf_length {S : Type} (R : PyRandom S) (pid sid days today : ℤ) :
    (predictLoopOf R pid sid days today).1.length = days.toNat := by
  unfold predictLoopOf
  rw [forecastLoop_length]
  exact List.length_range days.toNat

/-- The variance computed inside `predict_demand` is nonnegative (for a
negative horizon the prediction list is empty, so it is `0 / days = 0`). -/
theorem predict_demand_variance_nonneg {S : Type} (R : PyRandom S)
    (pid sid days today : ℤ) (h : days ≠ 0) :
    0 ≤ (((predictLoopOf R pid sid days today).1.map (fun p =>
      (p.demand - (predictLoopOf R pid sid days today).2.1 / (days : ℚ)) ^ 2)).sum)
      / (days : ℚ) := by
  rcases lt_trichotomy days 0 with hneg | hzero | hpos
  · have hlen : (predictLoopOf R pid sid days today).1.length = 0 := by
      rw [predictLoopOf_length]
      omega
    have hnil : (predictLoopOf R pid sid days today).1 = [] :=
      List.eq_nil_of_length_eq_zero hlen
    rw [hnil]
    simp
  · exact absurd hzero h
  · apply div_nonneg
    · apply List.sum_nonneg
      intro a ha
      rcases List.mem_map.mp ha with ⟨p, _, rfl⟩
      positivity
    · exact_mod_cast le_of_lt hpos

/-- The reported `std_dev` of a successful forecast is nonnegative, for any
square-root function that is nonnegative on nonnegative inputs. -/
theorem predict_demand_std_nonneg {S : Type} (sq : ℚ → ℚ) (R : PyRandom S)
    (pid sid days today : ℤ) (sInit : S) (d : PredictOk)
    (hsq : ∀ x : ℚ, 0 ≤ x → 0 ≤ sq x)
    (h : (predict_demand sq R pid sid days today sInit).1 = .ok d) :
    0 ≤ d.std_dev := by
  have hz : days ≠ 0 := by
    intro hzero
    subst hzero
    rw [predict_demand_err_of_zero] at h
    exact PredictReturn.noConfusion h
  rw [predict_demand_ok_fields sq R pid sid days today sInit hz] at h
  injection h with h'
  subst h'
  exact roundTo_nonneg 2 (hsq _ (predict_demand_variance_nonneg R pid sid days today hz))

/-- C5: `calculate_reorder_point` computes `lead_time_demand = avg * lead`,
`lead_time_std_dev = std * sqrt(lead)`, `safety_stock = z(service_level) *
lead_time_std_dev` and `reorder_point = ceil(lead_time_demand +
safety_stock)`, so the reorder point is at least the lead-time demand for
every successful call; and when the underlying forecast reports
`avg_daily_demand = 10` and `std_dev = 2`, with `lead_time_days = 4` and
`service_level = 0.95`, the safety factor is `1.65`, the safety stock is
`6.6` and the reorder point is `47`. -/
theorem reorder_point_formula_and_example :
    (∀ {S : Type} (sq : ℚ → ℚ) (R : PyRandom S) (pid sid lead today : ℤ)
      (sl : ℚ) (sInit : S) (r : ReorderOk),
      (∀ x : ℚ, 0 ≤ x → 0 ≤ sq x) →
      (calculate_reorder_point sq R pid sid lead sl today sInit).1 = .ok r →
      r.lead_time_demand ≤ (r.reorder_point : ℚ)) ∧
    (∀ {S : Type} (sq : ℚ → ℚ) (R : PyRandom S) (pid sid today : ℤ) (sInit : S)
      (d : PredictOk) (r : ReorderOk),
      (predict_demand sq R pid sid 4 today sInit).1 = .ok d →
      d.avg_daily_demand = 10 → d.std_dev = 2 → sq ((4 : ℤ) : ℚ) = 2 →
      (calculate_reorder_point sq R pid sid 4 (19/20) today sInit).1 = .ok r →
      r.safety_factor = 33/20 ∧ r.safety_stock = 33/5 ∧ r.reorder_point = 47 ∧
        r.lead_time_demand = 40) := by
  constructor
  · intro S sq R pid sid lead today sl sInit r hsq hok
    cases hpr : (predict_demand sq R pid sid lead today sInit).1 with
    | err e =>
      simp only [calculate_reorder_point, hpr] at hok
      exact ReorderReturn.noConfusion hok
    | ok d =>
      simp only [calculate_reorder_point, hpr] at hok
      split at hok
      · exact absurd hok (by simp)
      · rename_i hlead
        push_neg at hlead
        injection hok with hok'
        subst hok'
        simp only
        have hstd : 0 ≤ d.std_dev :=
          predict_demand_std_nonneg sq R pid sid lead today sInit d hsq hpr
        have hsql : 0 ≤ sq ((lead : ℤ) : ℚ) := hsq _ (by exact_mod_cast hlead)
        have hss : 0 ≤ safetyFactor sl * (d.std_dev * sq ((lead : ℤ) : ℚ)) :=
          mul_nonneg (safetyFactor_nonneg sl) (mul_nonneg hstd hsql)
        calc roundTo 2 (d.avg_daily_demand * ((lead : ℤ) : ℚ))
            ≤ (⌈d.avg_daily_demand * ((lead : ℤ) : ℚ)⌉ : ℚ) := roundTo_le_ceil _ _
          _ ≤ (⌈d.avg_daily_demand * ((lead : ℤ) : ℚ) +
                safetyFactor sl * (d.std_dev * sq ((lead : ℤ) : ℚ))⌉ : ℚ) := by
              exact_mod_cast Int.ceil_le_ceil (by linarith)
  · intro S sq R pid sid today sInit d r hpred havg hstd hsq4 hok
    simp only [calculate_reorder_point, hpred] at hok
    norm_num at hok
    subst hok
    push_cast at hsq4
    simp only [havg, hstd, hsq4]
    refine ⟨?_, ?_, ?_, ?_⟩
    · norm_num [safetyFactor, roundTo, rne]
    · norm_num [safetyFactor, roundTo, rne]
    · norm_num [safetyFactor]
      rw [Int.ceil_eq_iff] <;> norm_num
    · norm_num [roundTo, rne]

/-- C6: for a fixed product, store and lead time, the reported
`safety_stock` of `calculate_reorder_point` is monotone (non-decreasing) in
the service level: the service-level-to-safety-factor lookup is
non-decreasing, and it multiplies the same nonnegative lead-time standard
deviation in both calls. -/
theorem safety_stock_monotone_in_service_level {S : Type} (sq : ℚ → ℚ)
    (R : PyRandom S) (pid sid lead today : ℤ) (sInit : S) (sl1 sl2 : ℚ)
    (h12 : sl1 < sl2) (hsq : ∀ x : ℚ, 0 ≤ x → 0 ≤ sq x)
    (r1 r2 : ReorderOk)
    (h1 : (calculate_reorder_point sq R pid sid lead sl1 today sInit).1 = .ok r1)
    (h2 : (calculate_reorder_point sq R pid sid lead sl2 today sInit).1 = .ok r2) :
    r1.safety_stock ≤ r2.safety_stock := by
  cases hpr : (predict_demand sq R pid sid lead today sInit).1 with
  | err e =>
    simp only [calculate_reorder_point, hpr] at h1
    exact ReorderReturn.noConfusion h1
  | ok d =>
    simp only [calculate_reorder_point, hpr] at h1 h2
    split at h1
    · exact absurd h1 (by simp)
    · rename_i hlead
      push_neg at hlead
      rw [if_neg (not_lt.mpr hlead)] at h2
      injection h1 with h1'
      injection h2 with h2'
      subst h1'
      subst h2'
      simp only
      have hstd : 0 ≤ d.std_dev :=
        predict_demand_std_nonneg sq R pid sid lead today sInit d hsq hpr
      have hsql : 0 ≤ sq ((lead : ℤ) : ℚ) := hsq _ (by exact_mod_cast hlead)
      exact roundTo_mono 2
        (mul_le_mul_of_nonneg_right (safetyFactor_mono h12.le)
          (mul_nonneg hstd hsql))

section ConcreteReorder

attribute [local semireducible] Rat.add Rat.mul Rat.inv Rat.sub Rat.ofScientific

set_option maxRecDepth 1000000

/-- Draw table giving a 4-day forecast with daily demands `8, 12, 8, 12`
(mean `10`, population standard deviation exactly `2`). -/
def genReorder : PyRandom (List ℚ) :=
  tableGen (fun n => if n = 1001 then [10, 0, 1/5, 1/10, -1, 3, -1, 3] else [])

/-- C5 (witness): both halves of the reorder-point theorem at the concrete
forecast with `avg_daily_demand = 10`, `std_dev = 2`, `lead_time_days = 4`,
`service_level = 0.95`. -/
theorem reorder_point_formula_and_example_witness :
    ((calculate_reorder_point ratSqrt genReorder 1 1 4 (19/20) 0
        ([] : List ℚ)).1.getOk.lead_time_demand ≤
      ((calculate_reorder_point ratSqrt genReorder 1 1 4 (19/20) 0
        ([] : List ℚ)).1.getOk.reorder_point : ℚ)) ∧
    ((calculate_reorder_point ratSqrt genReorder 1 1 4 (19/20) 0
        ([] : List ℚ)).1.getOk.safety_factor = 33/20 ∧
      (calculate_reorder_point ratSqrt genReorder 1 1 4 (19/20) 0
        ([] : List ℚ)).1.getOk.safety_stock = 33/5 ∧
      (calculate_reorder_point ratSqrt genReorder 1 1 4 (19/20) 0
        ([] : List ℚ)).1.getOk.reorder_point = 47 ∧
      (calculate_reorder_point ratSqrt genReorder 1 1 4 (19/20) 0
        ([] : List ℚ)).1.getOk.lead_time_demand = 40) :=
  ⟨reorder_point_formula_and_example.1 ratSqrt genReorder 1 1 4 0 (19/20)
      ([] : List ℚ) _ ratSqrt_nonneg' (by decide),
   reorder_point_formula_and_example.2 ratSqrt genReorder 1 1 0
      ([] : List ℚ)
      ((predict_demand ratSqrt genReorder 1 1 4 0 ([] : List ℚ)).1.getOk) _
      (by decide) (by decide) (by decide) (by decide) (by decide)⟩

/-- C6 (witness): monotone safety stock at service levels `0.9 < 0.95` for
the same concrete forecast. -/
theorem safety_stock_monotone_witness :
    (calculate_reorder_point ratSqrt genReorder 1 1 4 (9/10) 0
        ([] : List ℚ)).1.getOk.safety_stock ≤
      (calculate_reorder_point ratSqrt genReorder 1 1 4 (19/20) 0
        ([] : List ℚ)).1.getOk.safety_stock :=
  safety_stock_monotone_in_service_level ratSqrt genReorder 1 1 4 0
    ([] : List ℚ) (9/10) (19/20) (by norm_num) ratSqrt_nonneg' _ _
    (by decide) (by decide)

end ConcreteReorder

/-! ## Claim C7: economic order quantity -/

/-- C7 (amended): when the derived holding cost is positive and the call
succeeds, the returned `eoq` equals `ceil(sqrt(2 * annual_demand *
order_cost / holding_cost))` and is strictly positive; when the holding
cost is not positive the call returns an error value as data.  However a
positive holding cost does not guarantee a non-error result: with zero
forecast demand the EOQ rounds to `0` and the `annual_demand / eoq_rounded`
division raises, which the handler also converts into an error result. -/
theorem eoq_positive_amended {S : Type} (sq : ℚ → ℚ) (R : PyRandom S)
    (pid sid : ℤ) (holding_cost_pct order_cost : ℚ) (days today : ℤ) (sInit : S)
    (d : PredictOk)
    (hsq : ∀ x : ℚ, 0 ≤ x → 0 ≤ sq x)
    (hpred : (predict_demand sq R pid sid (min days 90) today sInit).1 = .ok d) :
    (∀ r : EoqOk,
      (calculate_economic_order_quantity sq R pid sid holding_cost_pct order_cost
        days today sInit).1 = .ok r →
      r.eoq = ⌈sq ((2 * (d.avg_daily_demand * (days : ℚ)) * order_cost) /
        (100 * holding_cost_pct))⌉ ∧ 0 < r.eoq) ∧
    (100 * holding_cost_pct ≤ 0 →
      (calculate_economic_order_quantity sq R pid sid holding_cost_pct order_cost
        days today sInit).1.isOk = false) := by
  constructor
  · intro r hok
    simp only [calculate_economic_order_quantity, hpred] at hok
    split at hok
    · rename_i hhold
      split at hok
      · exact absurd hok (by simp)
      · rename_i harg
        push_neg at harg
        split at hok
        · exact absurd hok (by simp)
        · rename_i hne
          split at hok
          · exact absurd hok (by simp)
          · injection hok with hok'
            subst hok'
            simp only
            refine ⟨trivial, ?_⟩
            have hsqa : 0 ≤ sq ((2 * (d.avg_daily_demand * (days : ℚ)) * order_cost) /
                (100 * holding_cost_pct)) := hsq _ harg
            have hcge : (0 : ℤ) ≤ ⌈sq ((2 * (d.avg_daily_demand * (days : ℚ)) * order_cost) /
                (100 * holding_cost_pct))⌉ := by
              exact_mod_cast Int.ceil_nonneg hsqa
            omega
    · exact absurd hok (by simp)
  · intro hhold
    simp only [calculate_economic_order_quantity, hpred]
    rw [if_neg (not_lt.mpr hhold)]
    rfl

section ConcreteEoq

attribute [local semireducible] Rat.add Rat.mul Rat.inv Rat.sub Rat.ofScientific

set_option maxRecDepth 1000000

/-- Draw table giving a 2-day forecast whose daily demands are both `0`
(the noise draws push every day below zero, and demand is clamped at 0). -/
def genEoqZero : PyRandom (List ℚ) :=
  tableGen (fun n => if n = 1001 then [5, 0, 1/10, 1/20, -10, -10] else [])

/-- C7 (counterexample): with a *positive* holding cost
(`100 * 0.25 = 25 > 0`) but a zero-demand forecast,
`calculate_economic_order_quantity` returns an error result: the claim
that it returns an error exactly when the holding cost is `≤ 0` (and a
strictly positive EOQ whenever the holding cost is positive) is false. -/
theorem eoq_error_zero_demand_counterexample :
    ((calculate_economic_order_quantity ratSqrt genEoqZero 1 1 (1/4) 25 2 0
        ([] : List ℚ)).1.isOk = false) ∧
    ((0 : ℚ) < 100 * (1/4)) ∧
    ((predict_demand ratSqrt genEoqZero 1 1 (min 2 90) 0
        ([] : List ℚ)).1.getOk.avg_daily_demand = 0) := by
  refine ⟨?_, ?_, ?_⟩ <;> decide

/-- Draw table giving a 2-day forecast with daily demands `9, 9`
(average `9`, annual demand `18` over `days = 2`); the EOQ argument is
`2 * 18 * 25 / 25 = 36`, a perfect square. -/
def genEoqPos : PyRandom (List ℚ) :=
  tableGen (fun n => if n = 1001 then [10, 0, 1/5, 1/10, 0, 0] else [])

/-- C7 (witness): the amended EOQ theorem instantiated at the concrete
positive-demand forecast (`eoq = ceil(sqrt(36)) = 6 > 0`). -/
theorem eoq_positive_amended_witness :
    ((calculate_economic_order_quantity ratSqrt genEoqPos 1 1 (1/4) 25 2 0
        ([] : List ℚ)).1.getOk.eoq =
      ⌈ratSqrt ((2 * ((predict_demand ratSqrt genEoqPos 1 1 (min 2 90) 0
          ([] : List ℚ)).1.getOk.avg_daily_demand * ((2 : ℤ) : ℚ)) * 25) /
        (100 * (1/4)))⌉ ∧
      0 < (calculate_economic_order_quantity ratSqrt genEoqPos 1 1 (1/4) 25 2 0
        ([] : List ℚ)).1.getOk.eoq) :=
  (eoq_positive_amended ratSqrt genEoqPos 1 1 (1/4) 25 2 0 ([] : List ℚ)
      ((predict_demand ratSqrt genEoqPos 1 1 (min 2 90) 0 ([] : List ℚ)).1.getOk)
      ratSqrt_nonneg' (by decide)).1
    ((calculate_economic_order_quantity ratSqrt genEoqPos 1 1 (1/4) 25 2 0
      ([] : List ℚ)).1.getOk) (by decide)

end ConcreteEoq

/-! ## Claim C8: the candidate-price demand model -/

/-- C8 (counterexample): the candidate-demand computation of
`calculate_optimal_price` is the *linear* approximation, not the
constant-elasticity power model of the claim: at
`base_demand = 100`, `current_price = 100`, `candidate_price = 50`,
`elasticity = -2`, the code computes `100 * (1 + (-2) * (-1/2)) = 200`
while `100 * (50/100) ^ (-2) = 400`. -/
theorem expected_demand_linear_not_power_counterexample :
    expectedDemandAtPrice (-2) 100 100 50 = 200 ∧
    specConstantElasticityDemand 100 100 50 (-2) = 400 ∧
    expectedDemandAtPrice (-2) 100 100 50 ≠
      specConstantElasticityDemand 100 100 50 (-2) := by
  refine ⟨?_, ?_, ?_⟩ <;> norm_num [expectedDemandAtPrice, specConstantElasticityDemand]

/-- C8 (amended): when an elasticity is available (nonzero) and the current
price is positive, the expected demand evaluated for each candidate price
equals the linear elasticity approximation
`base_demand * (1 + elasticity * (candidate - current) / current)`,
clamped below at 0 — not the constant-elasticity power model. -/
theorem expected_demand_linear_amended (elasticity current_price base_demand price : ℚ)
    (he : elasticity ≠ 0) (hp : 0 < current_price) :
    expectedDemandAtPrice elasticity current_price base_demand price =
      max 0 (base_demand * (1 + elasticity * ((price - current_price) / current_price))) := by
  unfold expectedDemandAtPrice
  rw [if_pos ⟨he, hp⟩]

/-- C8 (witness): the amended linear-demand theorem at
`elasticity = -2`, `current_price = 100`, `base_demand = 100`,
`candidate = 80`. -/
theorem expected_demand_linear_amended_witness :
    expectedDemandAtPrice (-2) 100 100 80 =
      max 0 (100 * (1 + (-2) * ((80 - 100) / 100))) :=
  expected_demand_linear_amended (-2) 100 100 80 (by norm_num) (by norm_num)

/-! ## Claim C2: allocation invariants — list lemmas -/

theorem bumpAt_length (l : List AllocationEntry) (i : ℕ) :
    (bumpAt l i).length = l.length := by
  induction l generalizing i with
  | nil => rfl
  | cons a rest ih =>
    cases i with
    | zero => rfl
    | succ j => simp [bumpAt, ih]

theorem bumpAt_ne_nil {l : List AllocationEntry} (hl : l ≠ []) (i : ℕ) :
    bumpAt l i ≠ [] := by
  intro h
  apply hl
  have := bumpAt_length l i
  rw [h] at this
  exact List.eq_nil_of_length_eq_zero this.symm

theorem bumpAt_ids (l : List AllocationEntry) (i : ℕ) :
    (bumpAt l i).map (fun a => a.store_id) = l.map (fun a => a.store_id) := by
  induction l generalizing i with
  | nil => rfl
  | cons a rest ih =>
    cases i with
    | zero => rfl
    | succ j => simp [bumpAt, ih]

theorem bumpAt_sum (l : List AllocationEntry) (i : ℕ) (h : i < l.length) :
    ((bumpAt l i).map (fun a => a.allocation)).sum =
      (l.map (fun a => a.allocation)).sum + 1 := by
  induction l generalizing i with
  | nil => simp at h
  | cons a rest ih =>
    cases i with
    | zero =>
      simp [bumpAt]
      ring
    | succ j =>
      have hj : j < rest.length := by simpa using h
      simp [bumpAt, ih j hj]
      ring

theorem bumpAt_nonneg {l : List AllocationEntry} (i : ℕ)
    (h : ∀ e ∈ l, 0 ≤ e.allocation) :
    ∀ e ∈ bumpAt l i, 0 ≤ e.allocation := by
  induction l generalizing i with
  | nil => intro e he; simp [bumpAt] at he
  | cons a rest ih =>
    cases i with
    | zero =>
      intro e he
      rcases List.mem_cons.mp he with rfl | htail
      · have := h a (List.mem_cons_self a rest)
        simp only
        omega
      · exact h e (List.mem_cons_of_mem a htail)
    | succ j =>
      intro e he
      rcases List.mem_cons.mp he with rfl | htail
      · exact h e (List.mem_cons_self e rest)
      · exact ih j (fun x hx => h x (List.mem_cons_of_mem a hx)) e htail

theorem roundRobin_length (k : ℕ) :
    ∀ (l : List AllocationEntry) (i : ℕ), (roundRobin l i k).length = l.length := by
  induction k with
  | zero => intro l i; rfl
  | succ m ih =>
    intro l i
    simp only [roundRobin]
    rw [ih, bumpAt_length]

theorem roundRobin_ids (k : ℕ) :
    ∀ (l : List AllocationEntry) (i : ℕ),
      (roundRobin l i k).map (fun a => a.store_id) = l.map (fun a => a.store_id) := by
  induction k with
  | zero => intro l i; rfl
  | succ m ih =>
    intro l i
    simp only [roundRobin]
    rw [ih, bumpAt_ids]

theorem roundRobin_sum (k : ℕ) :
    ∀ (l : List AllocationEntry) (i : ℕ), l ≠ [] →
      ((roundRobin l i k).map (fun a => a.allocation)).sum =
        (l.map (fun a => a.allocation)).sum + k := by
  induction k with
  | zero => intro l i _; simp [roundRobin]
  | succ m ih =>
    intro l i hl
    simp only [roundRobin]
    have hlen : 0 < l.length := List.length_pos.mpr hl
    have hmod : i % l.length < l.length := Nat.mod_lt i hlen
    rw [ih (bumpAt l (i % l.length)) (i + 1) (bumpAt_ne_nil hl _),
        bumpAt_sum l _ hmod]
    push_cast
    ring

theorem roundRobin_nonneg (k : ℕ) :
    ∀ (l : List AllocationEntry) (i : ℕ),
      (∀ e ∈ l, 0 ≤ e.allocation) →
      ∀ e ∈ roundRobin l i k, 0 ≤ e.allocation := by
  induction k with
  | zero => intro l i h; exact h
  | succ m ih =>
    intro l i h
    exact ih _ _ (bumpAt_nonneg _ h)

theorem intCast_listSum (l : List ℤ) :
    ((l.sum : ℤ) : ℚ) = (l.map (fun z : ℤ => (z : ℚ))).sum := by
  induction l with
  | nil => simp
  | cons a t ih => simp [ih]

/-! ## Claim C2: allocation invariants — store demand facts -/

theorem storeDemands_ids {S : Type} (sq : ℚ → ℚ) (R : PyRandom S) (pid today : ℤ) :
    ∀ (ids : List ℤ) (s : S),
      ((storeDemands sq R pid today ids s).1).map (fun e => e.store_id) = ids := by
  intro ids
  induction ids with
  | nil => intro s; rfl
  | cons sid rest ih =>
    intro s
    cases hpr : (predict_demand sq R pid sid 30 today s).1 with
    | err e =>
      have hok : (predict_demand sq R pid sid 30 today s).1.isOk = true :=
        (predict_demand_isOk_iff sq R pid sid 30 today s).mpr (by norm_num)
      rw [hpr] at hok
      simp [PredictReturn.isOk] at hok
    | ok d =>
      simp only [storeDemands, hpr, List.map_cons]
      rw [ih]

theorem storeDemands_demand_nonneg {S : Type} (sq : ℚ → ℚ) (R : PyRandom S)
    (pid today : ℤ) :
    ∀ (ids : List ℤ) (s : S),
      ∀ e ∈ (storeDemands sq R pid today ids s).1, 0 ≤ e.demand := by
  intro ids
  induction ids with
  | nil => intro s e he; simp [storeDemands] at he
  | cons sid rest ih =>
    intro s e he
    cases hpr : (predict_demand sq R pid sid 30 today s).1 with
    | err msg =>
      have hok : (predict_demand sq R pid sid 30 today s).1.isOk = true :=
        (predict_demand_isOk_iff sq R pid sid 30 today s).mpr (by norm_num)
      rw [hpr] at hok
      simp [PredictReturn.isOk] at hok
    | ok d =>
      rw [storeDemands] at he
      simp only [hpr] at he
      rcases List.mem_cons.mp he with rfl | htail
      · exact predict_demand_total_nonneg sq R pid sid 30 today s d hpr
      · exact ih _ e htail

/-- The sum of the proportional floors in the scarcity branch never exceeds
the total stock. -/
theorem floor_alloc_sum_le (sd : List StoreDemandEntry) (ts : ℤ)
    (hd : ∀ e ∈ sd, 0 ≤ e.demand)
    (htd : 0 < (sd.map (fun e => e.demand)).sum) :
    ((sd.map (fun e =>
        ⌊(ts : ℚ) * ((e.demand : ℚ) / (((sd.map (fun x => x.demand)).sum : ℤ) : ℚ))⌋)).sum)
      ≤ ts := by
  set td : ℤ := (sd.map (fun x => x.demand)).sum with htddef
  have htdq : (0 : ℚ) < ((td : ℤ) : ℚ) := by exact_mod_cast htd
  have hcast : (((sd.map (fun e =>
      ⌊(ts : ℚ) * ((e.demand : ℚ) / ((td : ℤ) : ℚ))⌋)).sum : ℤ) : ℚ) ≤ (ts : ℚ) := by
    rw [intCast_listSum, List.map_map]
    have hle : ((sd.map ((fun z : ℤ => (z : ℚ)) ∘ (fun e =>
        ⌊(ts : ℚ) * ((e.demand : ℚ) / ((td : ℤ) : ℚ))⌋))).sum)
        ≤ ((sd.map (fun e => (ts : ℚ) / ((td : ℤ) : ℚ) * (e.demand : ℚ))).sum) := by
      apply List.sum_le_sum
      intro e he
      have : (ts : ℚ) * ((e.demand : ℚ) / ((td : ℤ) : ℚ)) =
          (ts : ℚ) / ((td : ℤ) : ℚ) * (e.demand : ℚ) := by ring
      calc ((⌊(ts : ℚ) * ((e.demand : ℚ) / ((td : ℤ) : ℚ))⌋ : ℤ) : ℚ)
          ≤ (ts : ℚ) * ((e.demand : ℚ) / ((td : ℤ) : ℚ)) := Int.floor_le _
        _ = (ts : ℚ) / ((td : ℤ) : ℚ) * (e.demand : ℚ) := this
    have hsum : ((sd.map (fun e => (ts : ℚ) / ((td : ℤ) : ℚ) * (e.demand : ℚ))).sum)
        = (ts : ℚ) := by
      rw [List.sum_map_mul_left]
      have : ((sd.map (fun e => (e.demand : ℚ))).sum) = ((td : ℤ) : ℚ) := by
        rw [htddef, intCast_listSum, List.map_map]
        rfl
      rw [this]
      field_simp
    calc ((sd.map ((fun z : ℤ => (z : ℚ)) ∘ (fun e =>
        ⌊(ts : ℚ) * ((e.demand : ℚ) / ((td : ℤ) : ℚ))⌋))).sum)
        ≤ ((sd.map (fun e => (ts : ℚ) / ((td : ℤ) : ℚ) * (e.demand : ℚ))).sum) := hle
      _ = (ts : ℚ) := hsum
  exact_mod_cast hcast

theorem surplusAlloc_facts (sd : List StoreDemandEntry) (ts : ℤ)
    (hne : sd ≠ []) (hd : ∀ e ∈ sd, 0 ≤ e.demand)
    (hbr : (sd.map (fun e => e.demand)).sum ≤ ts) :
    ((surplusAlloc sd ts).map (fun a => a.store_id)) = sd.map (fun e => e.store_id) ∧
    (∀ e ∈ surplusAlloc sd ts, 0 ≤ e.allocation) ∧
    ((surplusAlloc sd ts).map (fun a => a.allocation)).sum = ts := by
  unfold surplusAlloc
  set alloc0 := sd.map (fun e =>
    ({ store_id := e.store_id, allocation := ⌈((e.demand : ℤ) : ℚ)⌉,
       demand := rne ((e.demand : ℤ) : ℚ),
       coverage := coverageOf ⌈((e.demand : ℤ) : ℚ)⌉ e.demand } : AllocationEntry))
    with halloc0
  have hids0 : alloc0.map (fun a => a.store_id) = sd.map (fun e => e.store_id) := by
    rw [halloc0, List.map_map]
    rfl
  have hsum0 : (alloc0.map (fun a => a.allocation)).sum =
      (sd.map (fun e => e.demand)).sum := by
    rw [halloc0, List.map_map]
    congr 1
    apply List.map_congr_left
    intro e _
    simp [Int.ceil_intCast]
  have hnn0 : ∀ e ∈ alloc0, 0 ≤ e.allocation := by
    intro e he
    rw [halloc0] at he
    rcases List.mem_map.mp he with ⟨x, hx, rfl⟩
    simp only [Int.ceil_intCast]
    exact hd x hx
  have hne0 : alloc0 ≠ [] := by
    rw [halloc0]
    simpa using hne
  by_cases hrem : 0 < ts - (alloc0.map (fun a => a.allocation)).sum ∧ alloc0.length ≠ 0
  · rw [if_pos hrem]
    refine ⟨?_, ?_, ?_⟩
    · rw [roundRobin_ids, hids0]
    · exact roundRobin_nonneg _ _ _ hnn0
    · rw [roundRobin_sum _ _ _ hne0]
      have h0 : 0 ≤ ts - (alloc0.map (fun a => a.allocation)).sum := by
        rw [hsum0]; omega
      rw [Int.toNat_of_nonneg h0]
      omega
  · rw [if_neg hrem]
    have hlen : alloc0.length ≠ 0 := by
      intro h
      exact hne0 (List.eq_nil_of_length_eq_zero h)
    have hle : ¬ 0 < ts - (alloc0.map (fun a => a.allocation)).sum := by
      intro h
      exact hrem ⟨h, hlen⟩
    refine ⟨hids0, hnn0, ?_⟩
    rw [hsum0] at hle ⊢
    omega

theorem scarcityAlloc_facts (sd : List StoreDemandEntry) (ts : ℤ)
    (hne : sd ≠ []) (hts : 0 ≤ ts) (hd : ∀ e ∈ sd, 0 ≤ e.demand)
    (hbr : ts < (sd.map (fun e => e.demand)).sum) :
    ((scarcityAlloc sd ts).map (fun a => a.store_id)).Perm
      (sd.map (fun e => e.store_id)) ∧
    (∀ e ∈ scarcityAlloc sd ts, 0 ≤ e.allocation) ∧
    ((scarcityAlloc sd ts).map (fun a => a.allocation)).sum = ts := by
  unfold scarcityAlloc
  have htd : 0 < (sd.map (fun e => e.demand)).sum := by omega
  have htdq : (0 : ℚ) < (((sd.map (fun e => e.demand)).sum : ℤ) : ℚ) := by
    exact_mod_cast htd
  set alloc0 := sd.map (fun e =>
    ({ store_id := e.store_id,
       allocation := ⌊(ts : ℚ) * ((e.demand : ℚ) /
         (((sd.map (fun e => e.demand)).sum : ℤ) : ℚ))⌋,
       demand := rne ((e.demand : ℤ) : ℚ),
       coverage := coverageOf
         ⌊(ts : ℚ) * ((e.demand : ℚ) / (((sd.map (fun e => e.demand)).sum : ℤ) : ℚ))⌋
         e.demand } : AllocationEntry))
    with halloc0
  have hids0 : alloc0.map (fun a => a.store_id) = sd.map (fun e => e.store_id) := by
    rw [halloc0, List.map_map]
    rfl
  have hsum0 : (alloc0.map (fun a => a.allocation)).sum =
      (sd.map (fun e =>
        ⌊(ts : ℚ) * ((e.demand : ℚ) /
          (((sd.map (fun x => x.demand)).sum : ℤ) : ℚ))⌋)).sum := by
    rw [halloc0, List.map_map]
    rfl
  have hF : (alloc0.map (fun a => a.allocation)).sum ≤ ts := by
    rw [hsum0]
    exact floor_alloc_sum_le sd ts hd htd
  have hnn0 : ∀ e ∈ alloc0, 0 ≤ e.allocation := by
    intro e he
    rw [halloc0] at he
    rcases List.mem_map.mp he with ⟨x, hx, rfl⟩
    simp only
    apply Int.floor_nonneg.mpr
    have hx0 : (0 : ℚ) ≤ (x.demand : ℚ) := by exact_mod_cast hd x hx
    positivity
  have hne0 : alloc0 ≠ [] := by
    rw [halloc0]
    simpa using hne
  have hps := List.perm_insertionSort
    (fun x y : AllocationEntry => x.coverage ≤ y.coverage) alloc0
  have hsne : alloc0.insertionSort
      (fun x y : AllocationEntry => x.coverage ≤ y.coverage) ≠ [] := by
    intro h
    rw [h] at hps
    exact hne0 hps.symm.eq_nil
  refine ⟨?_, ?_, ?_⟩
  · rw [roundRobin_ids]
    exact ((hps.map (fun a => a.store_id)).trans (by rw [hids0]))
  · apply roundRobin_nonneg
    intro e he
    exact hnn0 e (hps.subset he)
  · rw [roundRobin_sum _ _ _ hsne, ← halloc0]
    have hsort : ((alloc0.insertionSort
        (fun x y : AllocationEntry => x.coverage ≤ y.coverage)).map
          (fun a => a.allocation)).sum =
        (alloc0.map (fun a => a.allocation)).sum :=
      (hps.map (fun a => a.allocation)).sum_eq
    rw [hsort, Int.toNat_of_nonneg (by omega)]
    omega

theorem allocatePipeline_facts (sd : List StoreDemandEntry) (ts : ℤ)
    (hne : sd ≠ []) (hts : 0 ≤ ts) (hd : ∀ e ∈ sd, 0 ≤ e.demand) :
    ((allocatePipeline sd ts).map (fun a => a.store_id)).Perm
      (sd.map (fun e => e.store_id)) ∧
    (∀ e ∈ allocatePipeline sd ts, 0 ≤ e.allocation) ∧
    ((allocatePipeline sd ts).map (fun a => a.allocation)).sum = ts := by
  unfold allocatePipeline
  simp only
  by_cases hbr : (sd.map (fun e => e.demand)).sum ≤ ts
  · rw [if_pos hbr]
    obtain ⟨hids, hnn, hsum⟩ := surplusAlloc_facts sd ts hne hd hbr
    have hperm := List.perm_insertionSort
      (fun x y : AllocationEntry => x.store_id ≤ y.store_id) (surplusAlloc sd ts)
    refine ⟨?_, ?_, ?_⟩
    · exact (hperm.map (fun a => a.store_id)).trans (by rw [hids])
    · intro e he
      exact hnn e (hperm.subset he)
    · rw [(hperm.map (fun a => a.allocation)).sum_eq, hsum]
  · rw [if_neg hbr]
    push_neg at hbr
    obtain ⟨hids, hnn, hsum⟩ := scarcityAlloc_facts sd ts hne hts hd hbr
    have hperm := List.perm_insertionSort
      (fun x y : AllocationEntry => x.store_id ≤ y.store_id) (scarcityAlloc sd ts)
    refine ⟨?_, ?_, ?_⟩
    · exact (hperm.map (fun a => a.store_id)).trans hids
    · intro e he
      exact hnn e (hperm.subset he)
    · rw [(hperm.map (fun a => a.allocation)).sum_eq, hsum]

/-- C2 (amended): for every call to `optimize_inventory_allocation` with a
non-negative total stock and a non-empty store list (every 30-day store
forecast succeeds), the call returns a normal result whose allocation list
has exactly one entry per input store, every allocated quantity is
non-negative, and the allocated quantities sum exactly to `total_stock`, in
both the surplus and the scarcity branch.  (A zero-demand store is
*initialized* with allocation 0 and coverage 100, but the round-robin
remainder distribution may still raise its allocation above 0; see the
counterexample.) -/
theorem allocation_invariants_amended {S : Type} (sq : ℚ → ℚ) (R : PyRandom S)
    (pid : ℤ) (store_ids : List ℤ) (total_stock today : ℤ) (sInit : S)
    (hne : store_ids ≠ []) (hts : 0 ≤ total_stock) :
    ((optimize_inventory_allocation sq R pid store_ids total_stock today
      sInit).1.isOk = true) ∧
    (∀ r : AllocationOk,
      (optimize_inventory_allocation sq R pid store_ids total_stock today
        sInit).1 = .ok r →
      ((r.allocation.map (fun a => a.store_id)).Perm store_ids ∧
       (∀ e ∈ r.allocation, 0 ≤ e.allocation) ∧
       (r.allocation.map (fun a => a.allocation)).sum = total_stock)) := by
  have hids := storeDemands_ids sq R pid today store_ids sInit
  have hsdne : (storeDemands sq R pid today store_ids sInit).1 ≠ [] := by
    intro h
    apply hne
    rw [← hids, h]
    rfl
  have hd := storeDemands_demand_nonneg sq R pid today store_ids sInit
  constructor
  · simp only [optimize_inventory_allocation]
    rw [if_neg hsdne]
    rfl
  · intro r hok
    simp only [optimize_inventory_allocation] at hok
    rw [if_neg hsdne] at hok
    simp only at hok
    injection hok with hok'
    subst hok'
    simp only
    obtain ⟨hperm, hnn, hsum⟩ := allocatePipeline_facts
      (storeDemands sq R pid today store_ids sInit).1 total_stock hsdne hts hd
    exact ⟨hperm.trans (by rw [hids]), hnn, hsum⟩

section ConcreteAllocation

attribute [local semireducible] Rat.add Rat.mul Rat.inv Rat.sub Rat.ofScientific

set_option maxRecDepth 1000000

/-- Draw tables for two stores: store 1 forecasts total demand `0` (all
days clamped at zero), store 2 forecasts total demand `5` (one day of `5.0`,
the rest zero). -/
def genAllocCex : PyRandom (List ℚ) :=
  tableGen (fun n =>
    if n = 1001 then [5, 0, 1/10, 1/20] ++ List.replicate 30 (-10)
    else if n = 1002 then [5, 0, 1/10, 1/20, 1/4] ++ List.replicate 29 (-10)
    else [])

/-- C2 (counterexample): with stores `[1, 2]`, demands `[0, 5]` and
`total_stock = 7`, the surplus branch allocates `[0, 5]` and then
distributes the remainder `2` round-robin: store 1, whose demand is `0`,
ends with allocation `1`, not `0`.  (The quantities still sum to `7`.) -/
theorem allocation_zero_demand_store_counterexample :
    ((optimize_inventory_allocation ratSqrt genAllocCex 1 [1, 2] 7 0
        ([] : List ℚ)).1.getOk.allocation =
      [⟨1, 1, 0, 100⟩, ⟨2, 6, 5, 120⟩]) ∧
    ¬ (∀ e ∈ (optimize_inventory_allocation ratSqrt genAllocCex 1 [1, 2] 7 0
        ([] : List ℚ)).1.getOk.allocation, e.demand = 0 → e.allocation = 0) := by
  refine ⟨?_, ?_⟩ <;> decide

/-- C2 (witness): the amended allocation-invariants theorem at the same
concrete two-store call. -/
theorem allocation_invariants_amended_witness :
    ((optimize_inventory_allocation ratSqrt genAllocCex 1 [1, 2] 7 0
        ([] : List ℚ)).1.isOk = true) ∧
    (((optimize_inventory_allocation ratSqrt genAllocCex 1 [1, 2] 7 0
        ([] : List ℚ)).1.getOk.allocation.map (fun a => a.store_id)).Perm [1, 2] ∧
     (∀ e ∈ (optimize_inventory_allocation ratSqrt genAllocCex 1 [1, 2] 7 0
        ([] : List ℚ)).1.getOk.allocation, 0 ≤ e.allocation) ∧
     ((optimize_inventory_allocation ratSqrt genAllocCex 1 [1, 2] 7 0
        ([] : List ℚ)).1.getOk.allocation.map (fun a => a.allocation)).sum = 7) :=
  ⟨(allocation_invariants_amended ratSqrt genAllocCex 1 [1, 2] 7 0 ([] : List ℚ)
      (by decide) (by decide)).1,
   (allocation_invariants_amended ratSqrt genAllocCex 1 [1, 2] 7 0 ([] : List ℚ)
      (by decide) (by decide)).2
     ((optimize_inventory_allocation ratSqrt genAllocCex 1 [1, 2] 7 0
        ([] : List ℚ)).1.getOk) (by decide)⟩

end ConcreteAllocation
